import Mathlib

/-!
Verification of the loan capital calculation engine (calculators/loans.py and
calculators/constants.py) against its specification.

The embedding is a shallow one over the real numbers: the Python floats of the
source are modelled as elements of ℝ, `None` as `Option.none`, dictionaries
keyed by fixed strings as functions out of small inductive types, and the
result dictionaries as structures.  The scipy standard normal CDF and its
inverse (`norm.cdf` / `norm.ppf`) are modelled by the mathematical CDF of the
standard Gaussian measure and its (classically chosen) right inverse.
-/

open Set MeasureTheory ProbabilityTheory Filter

noncomputable section

namespace CapCalc

/-! ## Domain enumerations (calculators/constants.py) -/

/-- RatingBucket from constants.py. -/
inductive RatingBucket
  | AAA_AA | A | BBB | BB_B | BELOW_B | UNRATED
deriving DecidableEq

/-- ExposureType from constants.py. -/
inductive ExposureType
  | CORPORATE | RETAIL | RESIDENTIAL_MORTGAGE | COMMERCIAL_REAL_ESTATE
  | SOVEREIGN_CENTRAL_BANK | BANK | OTHER
deriving DecidableEq

/-- Approach from constants.py (the alias BASEL_III_IRB names the same member
as BASEL_III_IRB_FOUNDATION in the source, so it is not a separate value). -/
inductive Approach
  | BASEL_II_STANDARDIZED | BASEL_II_IRB | BASEL_III_STANDARDIZED
  | BASEL_III_IRB_FOUNDATION | BASEL_III_IRB_ADVANCED
deriving DecidableEq

/-- The regime classification strings "basel2" / "basel3" of Approach.regime. -/
inductive Regime
  | basel2 | basel3
deriving DecidableEq

/-- The method classification strings "standardized" / "irb" of Approach.method. -/
inductive Method
  | standardized | irb
deriving DecidableEq

/-- Approach.regime property from constants.py. -/
def Approach.regime : Approach → Regime
  | .BASEL_II_STANDARDIZED => .basel2
  | .BASEL_II_IRB => .basel2
  | .BASEL_III_STANDARDIZED => .basel3
  | .BASEL_III_IRB_FOUNDATION => .basel3
  | .BASEL_III_IRB_ADVANCED => .basel3

/-- Approach.method property from constants.py. -/
def Approach.method : Approach → Method
  | .BASEL_II_STANDARDIZED => .standardized
  | .BASEL_II_IRB => .irb
  | .BASEL_III_STANDARDIZED => .standardized
  | .BASEL_III_IRB_FOUNDATION => .irb
  | .BASEL_III_IRB_ADVANCED => .irb

/-- The jurisdiction codes of the JURISDICTION table in loans.py. -/
inductive Jurisdiction
  | US | CAN
deriving DecidableEq

/-- The floor regimes of the FLOOR_REGIME table in loans.py. -/
inductive FloorRegime
  | NONE | BCBS | OSFI
deriving DecidableEq

/-- The IRB asset class keys "corporate" / "bank" / "sovereign" used as
dictionary keys in loans.py. -/
inductive AssetClass
  | corporate | bank | sovereign
deriving DecidableEq

/-- The canonical collateral type strings used as keys of the secured LGD
floor map.  `unrecognized` stands for any non-empty string outside the map
(the source keeps the raw string for audit; its identity is irrelevant to the
floor lookup).  A missing / "none" / "unsecured" / "n/a" input is modelled as
`Option.none` upstream, as in _normalize_collateral_type. -/
inductive CollateralKind
  | financial | receivables | real_estate | other_physical | intangibles | unrecognized
deriving DecidableEq

/-- The lgd_mode values "supervisory" / "bank_estimated" in loans.py. -/
inductive LgdMode
  | supervisory | bank_estimated
deriving DecidableEq

/-- The lgd_source values in loans.py. -/
inductive LgdSource
  | supervisory_default | bank_estimated | default_used_missing_input
deriving DecidableEq

/-! ## Constants (loans.py, module level) -/

/-- Basel II IRB scaling factor (loans.py line 24). -/
def SCALING_FACTOR_BASEL2_IRB : ℝ := 1.06

/-- Basel III output floor, 72.5 percent of standardized RWA (line 27). -/
def BASEL3_OUTPUT_FLOOR_PCT : ℝ := 0.725

/-- Basel/OSFI PD floor, 0.05 percent (line 35). -/
def PD_FLOOR_BASEL3_GENERAL : ℝ := 0.0005

/-- Secured wholesale LGD floors by collateral type
(LGD_FLOORS_BASEL_WHOLESALE["secured_by_collateral_type"], lines 48-54);
`none` for a key outside the map. -/
def lgd_floors_wholesale_secured : CollateralKind → Option ℝ
  | .financial => some 0.00
  | .receivables => some 0.10
  | .real_estate => some 0.10
  | .other_physical => some 0.15
  | .intangibles => some 0.25
  | .unrecognized => none

/-- The unsecured wholesale LGD floor (LGD_FLOORS_BASEL_WHOLESALE["unsecured"]). -/
def LGD_FLOOR_WHOLESALE_UNSECURED : ℝ := 0.25

/-- LGD_DEFAULTS_BASEL2_FIRB (lines 84-88), as a function of the asset class key. -/
def lgd_defaults_basel2_firb : AssetClass → ℝ
  | .corporate => 0.45
  | .bank => 0.45
  | .sovereign => 0.45

/-- LGD_DEFAULTS_BASEL3_FIRB (lines 91-95). -/
def lgd_defaults_basel3_firb : AssetClass → ℝ
  | .corporate => 0.40
  | .bank => 0.45
  | .sovereign => 0.45

/-- The pd_floors dictionary built in the Basel III IRB branch of
calculate_loan_capital (lines 241-245). -/
def pd_floors_basel3 : AssetClass → ℝ
  | .corporate => PD_FLOOR_BASEL3_GENERAL
  | .bank => PD_FLOOR_BASEL3_GENERAL
  | .sovereign => 0.0

/-- The pd_floors dictionary built in the Basel II IRB branch (lines 285-289). -/
def pd_floors_basel2 : AssetClass → ℝ
  | .corporate => 0.0003
  | .bank => 0.0005
  | .sovereign => 0.0005

/-! ## Utilities (loans.py) -/

/-- The function _normalize_rate (lines 738-749).  A missing value yields the
default (the unparseable-string branch of the source is likewise the default
and is absorbed into `none`); a value at or below 0 yields the default; a
value above 1 is read as a percentage; otherwise the value is kept. -/
def normalize_rate (x : Option ℝ) (default : ℝ) : ℝ :=
  match x with
  | none => default
  | some val => if val ≤ 0 then default else if 1 < val then val / 100 else val

/-- Jurisdiction normalization at lines 130-132: anything other than "CAN"
resolves to US.  The source first strips whitespace and uppercases the raw
string; the embedding receives the canonical form (case and whitespace
variants play no role in any claim). -/
def normalize_jurisdiction (j : String) : Jurisdiction :=
  if j = "CAN" then .CAN else .US

/-- Floor regime resolution at lines 134-138. -/
def resolve_floor_regime (jur : Jurisdiction) (apply_bcbs_baseline_floors : Bool) :
    FloorRegime :=
  if jur = .CAN then .OSFI
  else if apply_bcbs_baseline_floors then .BCBS else .NONE

/-! ## Floor policy (loans.py _get_basel3_lgd_floor_policy, lines 370-429) -/

/-- The FloorPolicy decision record.  floor_source is the floor regime string
in the source ("N/A" in the Basel II branch, modelled as `none`). -/
structure FloorPolicy where
  enabled : Bool
  floor_value : Option ℝ
  floor_source : Option FloorRegime
  rule_path : String

/-- The function _get_basel3_lgd_floor_policy. -/
def get_basel3_lgd_floor_policy (floor_regime : FloorRegime)
    (asset_class_key : AssetClass) (collateral_type : Option CollateralKind) :
    FloorPolicy :=
  if asset_class_key = .sovereign then
    { enabled := false, floor_value := none, floor_source := some floor_regime,
      rule_path := "Basel III IRB: LGD parameter floors do not apply to sovereign asset class" }
  else if floor_regime = .NONE then
    { enabled := false, floor_value := none, floor_source := some floor_regime,
      rule_path := "No Basel III-final LGD floors applied (floor regime configured as NONE)" }
  else
    match collateral_type with
    | some ct =>
      match lgd_floors_wholesale_secured ct with
      | some floor_val =>
        { enabled := true, floor_value := some floor_val, floor_source := some floor_regime,
          rule_path := "Basel III IRB LGD floor (wholesale secured) by collateral type" }
      | none =>
        { enabled := true, floor_value := some LGD_FLOOR_WHOLESALE_UNSECURED,
          floor_source := some floor_regime,
          rule_path := "Basel III IRB LGD floor: unknown collateral type, fallback to unsecured floor" }
    | none =>
      { enabled := true, floor_value := some LGD_FLOOR_WHOLESALE_UNSECURED,
        floor_source := some floor_regime,
        rule_path := "Basel III IRB LGD floor (wholesale unsecured default)" }

/-! ## Basel II standardized risk weights (lines 564-589) -/

/-- The function get_standardized_risk_weight_basel2. -/
def get_standardized_risk_weight_basel2 (exposure_type : Option ExposureType)
    (rating_bucket : Option RatingBucket) (is_regulatory_retail : Bool)
    (is_prudent_mortgage : Bool) : ℝ :=
  if exposure_type = some .CORPORATE then
    if rating_bucket = some .AAA_AA then 0.20
    else if rating_bucket = some .A then 0.50
    else if rating_bucket = some .BBB then 1.00
    else if rating_bucket = some .BB_B then 1.00
    else if rating_bucket = some .BELOW_B then 1.50
    else 1.00
  else if exposure_type = some .RETAIL then
    if is_regulatory_retail then 0.75 else 1.00
  else if exposure_type = some .RESIDENTIAL_MORTGAGE then
    if is_prudent_mortgage then 0.35 else 1.00
  else 1.00

/-! ## Basel III standardized risk weights (lines 436-558) -/

/-- The CRE rule-path detail record emitted by
_basel3_cre_risk_weight_with_details. -/
structure CreDetails where
  property_income_dependent : Bool
  counterparty_type : ExposureType
  counterparty_rw : ℝ
  ltv : Option ℝ
  ltv_bucket : String
  rule_path : String
  rw_applied : ℝ

/-- Builder for the detail record of _basel3_cre_risk_weight_with_details:
the source fills asset_class, income flag, counterparty type/rw and ltv first
and then patches ltv_bucket, rule_path and rw_applied per branch. -/
def mkCreDetails (property_income_dependent : Bool)
    (counterparty_type : ExposureType) (cp_rw : ℝ) (ltv : Option ℝ)
    (ltv_bucket : String) (rule_path : String) (rw_applied : ℝ) : CreDetails :=
  { property_income_dependent := property_income_dependent,
    counterparty_type := counterparty_type, counterparty_rw := cp_rw,
    ltv := ltv, ltv_bucket := ltv_bucket, rule_path := rule_path,
    rw_applied := rw_applied }

/-- The branch of _basel3_cre_risk_weight_with_details after the counterparty
risk weight has been resolved (lines 516-558). -/
def basel3_cre_decision (ltv : Option ℝ) (property_income_dependent : Bool)
    (counterparty_type : ExposureType) (cp_rw : ℝ) : ℝ × Option CreDetails :=
  let det := mkCreDetails property_income_dependent counterparty_type cp_rw ltv
  if property_income_dependent then
    match ltv with
    | none =>
      (1.10, some (det "Unknown (no property_value)"
        "Basel III CRE (income-dependent): LTV unknown, default RW 110 pct" 1.10))
    | some l =>
      if l ≤ 0.60 then
        (0.70, some (det "<= 60 pct"
          "Basel III CRE (income-dependent): LTV <= 60 pct, RW 70 pct" 0.70))
      else if l ≤ 0.80 then
        (0.90, some (det "60 pct to 80 pct"
          "Basel III CRE (income-dependent): 60 pct < LTV <= 80 pct, RW 90 pct" 0.90))
      else
        (1.10, some (det "> 80 pct"
          "Basel III CRE (income-dependent): LTV > 80 pct, RW 110 pct" 1.10))
  else
    match ltv with
    | some l =>
      if l ≤ 0.60 then
        (min 0.60 cp_rw, some (det "<= 60 pct"
          "Basel III CRE (general): LTV <= 60 pct, RW = min(60 pct, RW_counterparty)"
          (min 0.60 cp_rw)))
      else
        (cp_rw, some (det "> 60 pct"
          "Basel III CRE (general): LTV > 60 pct, RW = RW_counterparty" cp_rw))
    | none =>
      (max cp_rw 1.00, some (det "Unknown (no property_value)"
        "Basel III CRE (general): LTV unknown, RW = max(RW_counterparty, 100 pct)"
        (max cp_rw 1.00)))

/-- The LTV computation of _basel3_cre_risk_weight_with_details (lines
490-492): defined when the property value is present and positive and the
EAD is present. -/
def cre_ltv (ead property_value : Option ℝ) : Option ℝ :=
  match property_value, ead with
  | some pv, some e => if 0 < pv then some (e / pv) else none
  | _, _ => none

/-- The pair get_standardized_risk_weight_basel3 /
_basel3_cre_risk_weight_with_details.  The two source functions are mutually
recursive through the counterparty resolution; the recursion is bounded
because the recursive call passes property_value = None and counterparty_type
= None, so a fuel argument makes the Lean function structural.  Fuel 3 is
enough for every call chain the entry point can produce (exposure CRE with
counterparty CRE resolves its inner counterparty as CORPORATE, which does not
recurse). -/
def basel3_rw : ℕ → Option ExposureType → Option RatingBucket → Option ℝ →
    Option ℝ → Bool → Option ExposureType → ℝ × Option CreDetails
  | 0, _, _, _, _, _, _ => (1.00, none)
  | fuel + 1, exposure_type, rating_bucket, ead, property_value,
      property_income_dependent, counterparty_type =>
    if exposure_type = some .CORPORATE then
      (if rating_bucket = some .AAA_AA ∨ rating_bucket = some .A ∨
          rating_bucket = some .BBB then 0.75
       else if rating_bucket = some .BB_B then 1.00
       else if rating_bucket = some .BELOW_B then 1.50
       else 1.00, none)
    else if exposure_type = some .BANK then
      (if rating_bucket = some .AAA_AA then 0.20
       else if rating_bucket = some .A then 0.50
       else if rating_bucket = some .BBB then 0.75
       else if rating_bucket = some .BB_B then 1.00
       else if rating_bucket = some .BELOW_B then 1.50
       else 1.00, none)
    else if exposure_type = some .COMMERCIAL_REAL_ESTATE then
      let cp := counterparty_type.getD .CORPORATE
      let ltv : Option ℝ := cre_ltv ead property_value
      let cp_rw0 := (basel3_rw fuel (some cp) rating_bucket none none false none).1
      let cp_rw := if cp = .CORPORATE ∨ cp = .BANK then cp_rw0 else max cp_rw0 1.00
      basel3_cre_decision ltv property_income_dependent cp cp_rw
    else (1.00, none)

/-- The entry point get_standardized_risk_weight_basel3 (fuel 3 covers every
reachable call chain, see basel3_rw). -/
def get_standardized_risk_weight_basel3 (exposure_type : Option ExposureType)
    (rating_bucket : Option RatingBucket) (ead : Option ℝ)
    (property_value : Option ℝ) (property_income_dependent : Bool)
    (counterparty_type : Option ExposureType) : ℝ × Option CreDetails :=
  basel3_rw 3 exposure_type rating_bucket ead property_value
    property_income_dependent counterparty_type

/-! ## The standard normal distribution

Models scipy.stats.norm.cdf and norm.ppf.  The CDF is the integral of the
standard Gaussian density over the left half line; the quantile is a right
inverse obtained by choice (scipy returns an infinite float at p = 1, which a
real-valued embedding cannot represent; the one place this matters, norm.cdf
of the resulting infinite argument, is handled in asrf_K below). -/

/-- The standard normal cumulative distribution function. -/
def stdNormalCDF (x : ℝ) : ℝ := ∫ t in Iic x, gaussianPDFReal 0 1 t

open scoped Classical in
/-- A right inverse of stdNormalCDF on (0, 1); junk value 0 elsewhere. -/
def stdNormalQuantile (p : ℝ) : ℝ :=
  if h : ∃ x, stdNormalCDF x = p then h.choose else 0

/-! ## IRB ASRF core (_calculate_irb_asrf, lines 595-717) -/

/-- Effective maturity in years (lines 625-628): clamp(maturity_months / 12,
1, 5), or 2.5 when the maturity is missing or non-positive. -/
def maturity_years (maturity_months : ℤ) : ℝ :=
  if 0 < maturity_months then min 5.0 (max 1.0 ((maturity_months : ℝ) / 12.0))
  else 2.5

/-- Supervisory asset correlation R (lines 661-664).  Note the 1e-12 floor on
PD inside the exponential and the guard replacing a zero denominator by
1e-12. -/
def supervisory_correlation (pd_used : ℝ) : ℝ :=
  let exp_term := Real.exp (-50.0 * max pd_used 1e-12)
  let denom0 := 1.0 - Real.exp (-50.0)
  let denom := if denom0 ≠ 0 then denom0 else 1e-12
  0.12 * (1.0 - exp_term) / denom + 0.24 * (1.0 - (1.0 - exp_term) / denom)

/-- The supervisory correlation exactly as the specification writes it:
R = 0.12 (1 - e^(-50 PD)) / (1 - e^(-50)) + 0.24 (1 - (1 - e^(-50 PD)) /
(1 - e^(-50))), with no clamp applied to PD.  Used solely to compare the
specified formula against the engine. -/
def specCorrelationR (pd : ℝ) : ℝ :=
  0.12 * (1 - Real.exp (-50 * pd)) / (1 - Real.exp (-50)) +
    0.24 * (1 - (1 - Real.exp (-50 * pd)) / (1 - Real.exp (-50)))

/-- Maturity coefficient b (line 666), with PD floored at 1e-9 inside the
logarithm. -/
def maturity_b (pd_used : ℝ) : ℝ :=
  (0.11852 - 0.05478 * Real.log (max pd_used 1e-9)) ^ 2

/-- Capital requirement K (lines 668-673): lgd * cdf(ppf(pd) / sqrt(1 - R) +
sqrt(R / (1 - R)) * ppf(0.999)) - pd * lgd.  For pd_used < 1 every quantity
is a finite real and the formula is literal.  scipy yields ppf(1) = +inf and
cdf(+inf) = 1, so pd_used = 1 gives lgd * 1 - pd_used * lgd; that IEEE
convention is the second branch (pd_used > 1 would propagate NaN in the
source; no claim reaches it and the branch is junk there). -/
def asrf_K (pd_used lgd_used R : ℝ) : ℝ :=
  if pd_used < 1 then
    lgd_used * stdNormalCDF (stdNormalQuantile pd_used / Real.sqrt (1.0 - R) +
      Real.sqrt (R / (1.0 - R)) * stdNormalQuantile 0.999) - pd_used * lgd_used
  else lgd_used * 1 - pd_used * lgd_used

/-- Maturity adjustment factor (line 674): (1 + (M - 2.5) b) / (1 - 1.5 b).
The source applies no guard to this denominator. -/
def maturity_adjustment (M b : ℝ) : ℝ :=
  (1.0 + (M - 2.5) * b) / (1.0 - 1.5 * b)

/-- The LGD selection of _calculate_irb_asrf (lines 630-659), as a record. -/
structure LgdDecision where
  lgd_used : ℝ
  lgd_source : LgdSource
  lgd_floor_applied : Bool
  lgd_floor_value : Option ℝ

/-- LGD selection (lines 637-659): supervisory mode takes the default;
bank-estimated mode normalizes the input and raises it to the policy floor
when the policy is enabled and carries a floor value. -/
def lgd_decision (lgd_mode : LgdMode) (lgd : Option ℝ) (lgd_default : ℝ)
    (policy : FloorPolicy) : LgdDecision :=
  match lgd_mode with
  | .supervisory =>
    { lgd_used := lgd_default, lgd_source := .supervisory_default,
      lgd_floor_applied := false, lgd_floor_value := none }
  | .bank_estimated =>
    let lgd_in := normalize_rate lgd lgd_default
    let src : LgdSource :=
      match lgd with
      | some v => if 0 < v then .bank_estimated else .default_used_missing_input
      | none => .default_used_missing_input
    match (if policy.enabled then policy.floor_value else none) with
    | some fv =>
      if lgd_in < fv then
        { lgd_used := fv, lgd_source := src, lgd_floor_applied := true,
          lgd_floor_value := some fv }
      else
        { lgd_used := lgd_in, lgd_source := src, lgd_floor_applied := false,
          lgd_floor_value := some fv }
    | none =>
      { lgd_used := lgd_in, lgd_source := src, lgd_floor_applied := false,
        lgd_floor_value := none }

/-- The nested output_floor diagnostic record (lines 339-353).  binding is
the proposition the source's boolean decides. -/
structure OutputFloorDetail where
  enabled : Bool
  floor_pct_of_standardized_rwa : ℝ
  standardized_risk_weight : ℝ
  standardized_rwa : ℝ
  floor_rwa : ℝ
  rwa_irb_pre_floor : ℝ
  rwa_final_post_floor : ℝ
  binding : Prop
  standardized_cre_details : Option CreDetails

/-- The result dictionary of _calculate_irb_asrf (lines 680-717), plus the
output_floor entry the orchestrator may attach.  effective_risk_weight
models the formatted effective_risk_weight_pct field: the ratio when
EAD > 0, None otherwise. -/
structure IrbResult where
  approach_enum : Approach
  irb_mode : String
  asset_class : AssetClass
  jurisdiction : Jurisdiction
  floor_regime : FloorRegime
  collateral_type : Option CollateralKind
  pd_input : ℝ
  pd_used : ℝ
  pd_floor : Option ℝ
  lgd_input : ℝ
  lgd_mode : LgdMode
  lgd_used : ℝ
  lgd_source : LgdSource
  lgd_default : ℝ
  lgd_floor_applied : Bool
  lgd_floor_value : Option ℝ
  lgd_floor_policy : FloorPolicy
  maturity_years : ℝ
  supervisory_correlation_R : ℝ
  K_unadjusted : ℝ
  maturity_adjustment_factor : ℝ
  K_adjusted : ℝ
  irb_scaling_factor : ℝ
  EAD : ℝ
  RWA : ℝ
  effective_risk_weight : Option ℝ
  capital_ratio : ℝ
  capital_required : ℝ
  output_floor : Option OutputFloorDetail

/-- The function _calculate_irb_asrf. -/
def calculate_irb_asrf (asset_class_key : AssetClass) (ead : ℝ)
    (pd lgd : Option ℝ) (maturity_months : ℤ) (capital_ratio : ℝ)
    (approach : Approach) (pd_floors : AssetClass → ℝ)
    (lgd_defaults : AssetClass → ℝ) (scaling_factor : ℝ) (irb_mode : String)
    (lgd_mode : LgdMode) (lgd_floor_policy : FloorPolicy)
    (jurisdiction : Jurisdiction) (floor_regime : FloorRegime)
    (collateral_type : Option CollateralKind) : IrbResult :=
  let pd_in := normalize_rate pd 0.01
  let pd_floor := pd_floors asset_class_key
  let pd_used := if pd_floor ≤ 0.0 then pd_in else max pd_in pd_floor
  let M := maturity_years maturity_months
  let lgd_default := lgd_defaults asset_class_key
  let ld := lgd_decision lgd_mode lgd lgd_default lgd_floor_policy
  let R := supervisory_correlation pd_used
  let b := maturity_b pd_used
  let K := asrf_K pd_used ld.lgd_used R
  let maturity_adj := maturity_adjustment M b
  let K_adj := K * maturity_adj
  let rwa := 12.5 * scaling_factor * K_adj * ead
  { approach_enum := approach, irb_mode := irb_mode,
    asset_class := asset_class_key, jurisdiction := jurisdiction,
    floor_regime := floor_regime, collateral_type := collateral_type,
    pd_input := pd_in, pd_used := pd_used,
    pd_floor := if 0.0 < pd_floor then some pd_floor else none,
    lgd_input := normalize_rate lgd lgd_default, lgd_mode := lgd_mode,
    lgd_used := ld.lgd_used, lgd_source := ld.lgd_source,
    lgd_default := lgd_default, lgd_floor_applied := ld.lgd_floor_applied,
    lgd_floor_value := ld.lgd_floor_value,
    lgd_floor_policy := lgd_floor_policy, maturity_years := M,
    supervisory_correlation_R := R, K_unadjusted := K,
    maturity_adjustment_factor := maturity_adj, K_adjusted := K_adj,
    irb_scaling_factor := scaling_factor, EAD := ead, RWA := rwa,
    effective_risk_weight := if 0 < ead then some (rwa / ead) else none,
    capital_ratio := capital_ratio, capital_required := rwa * capital_ratio,
    output_floor := none }

/-- The stub result for IRB asset classes that are not implemented
(_calculate_irb_stub, lines 720-732): only the approach identifiers and a
note, no EAD / RWA / capital fields. -/
structure StubResult where
  approach_enum : Approach
  notes : String

/-- The standardized-path result dictionary (lines 186-207). -/
structure StdResult where
  approach_enum : Approach
  version : String
  jurisdiction : Jurisdiction
  floor_regime : FloorRegime
  exposure_type_enum : Option ExposureType
  rating_bucket_enum : Option RatingBucket
  collateral_type : Option CollateralKind
  risk_weight : ℝ
  EAD : ℝ
  property_value : Option ℝ
  LTV : Option ℝ
  property_income_dependent : Bool
  RWA : ℝ
  capital_ratio : ℝ
  capital_required : ℝ
  cre_details : Option CreDetails

/-- The value calculate_loan_capital returns: a standardized result, an IRB
result, the IRB stub, or the error dictionary of line 364. -/
inductive CalcResult
  | std (r : StdResult)
  | irb (r : IrbResult)
  | stub (r : StubResult)
  | error (msg : String)

/-! ## Orchestrator (calculate_loan_capital, lines 101-364) -/

/-- Mapping from exposure type to IRB asset class key (lines 216-226);
`none` routes to the stub. -/
def asset_class_of : Option ExposureType → Option AssetClass
  | some .CORPORATE => some .corporate
  | some .BANK => some .bank
  | some .SOVEREIGN_CENTRAL_BANK => some .sovereign
  | _ => none

/-- The parameters the orchestrator fixes before invoking the ASRF engine
(lines 238-298): scaling factor, PD floor table, LGD default table, mode
labels and LGD floor policy. -/
structure IrbParams where
  scaling_factor : ℝ
  pd_floors : AssetClass → ℝ
  lgd_defaults : AssetClass → ℝ
  irb_mode : String
  lgd_mode : LgdMode
  lgd_floor_policy : FloorPolicy

/-- The literal policy record for bank exposures under Basel III Advanced IRB
(lines 254-260). -/
def lgd_policy_airb_bank (floor_regime : FloorRegime) : FloorPolicy :=
  { enabled := false, floor_value := none, floor_source := some floor_regime,
    rule_path := "A-IRB own-LGD not applied to bank exposures in this implementation: supervisory LGD default used" }

/-- The literal policy record for Basel III Foundation IRB (lines 273-279). -/
def lgd_policy_foundation (floor_regime : FloorRegime) : FloorPolicy :=
  { enabled := false, floor_value := none, floor_source := some floor_regime,
    rule_path := "Foundation uses supervisory LGD defaults" }

/-- The literal policy record for Basel II IRB (lines 292-298);
floor_source is the string "N/A" there, modelled as none. -/
def lgd_policy_basel2 : FloorPolicy :=
  { enabled := false, floor_value := none, floor_source := none,
    rule_path := "Basel II IRB floors not changed here" }

/-- The parameter selection of lines 238-298. -/
def irb_params (approach : Approach) (asset_class_key : AssetClass)
    (floor_regime : FloorRegime) (collateral_type : Option CollateralKind) :
    IrbParams :=
  if approach.regime = .basel3 then
    if approach = .BASEL_III_IRB_ADVANCED then
      if asset_class_key = .bank then
        { scaling_factor := 1.0, pd_floors := pd_floors_basel3,
          lgd_defaults := lgd_defaults_basel3_firb,
          irb_mode := "Basel III IRB - Advanced", lgd_mode := .supervisory,
          lgd_floor_policy := lgd_policy_airb_bank floor_regime }
      else
        { scaling_factor := 1.0, pd_floors := pd_floors_basel3,
          lgd_defaults := lgd_defaults_basel3_firb,
          irb_mode := "Basel III IRB - Advanced", lgd_mode := .bank_estimated,
          lgd_floor_policy :=
            get_basel3_lgd_floor_policy floor_regime asset_class_key collateral_type }
    else
      { scaling_factor := 1.0, pd_floors := pd_floors_basel3,
        lgd_defaults := lgd_defaults_basel3_firb,
        irb_mode := "Basel III IRB - Foundation", lgd_mode := .supervisory,
        lgd_floor_policy := lgd_policy_foundation floor_regime }
  else
    { scaling_factor := SCALING_FACTOR_BASEL2_IRB, pd_floors := pd_floors_basel2,
      lgd_defaults := lgd_defaults_basel2_firb,
      irb_mode := "Basel II IRB - Foundation", lgd_mode := .supervisory,
      lgd_floor_policy := lgd_policy_basel2 }

/-- The Basel III output floor application (lines 323-362): recompute the
standardized RWA, floor it at 72.5 percent, take the max against the IRB RWA
and overwrite RWA, capital_required and the effective risk weight. -/
def apply_basel3_output_floor (irb_result : IrbResult) (ead : ℝ)
    (capital_ratio : ℝ) (std_rw : ℝ) (std_cre_details : Option CreDetails) :
    IrbResult :=
  let rwa_std := ead * std_rw
  let floor_rwa := BASEL3_OUTPUT_FLOOR_PCT * rwa_std
  let rwa_irb_pre_floor := irb_result.RWA
  let rwa_final := max rwa_irb_pre_floor floor_rwa
  { irb_result with
    RWA := rwa_final,
    capital_required := rwa_final * capital_ratio,
    effective_risk_weight := if 0 < ead then some (rwa_final / ead) else none,
    output_floor := some
      { enabled := true,
        floor_pct_of_standardized_rwa := BASEL3_OUTPUT_FLOOR_PCT,
        standardized_risk_weight := std_rw, standardized_rwa := rwa_std,
        floor_rwa := floor_rwa, rwa_irb_pre_floor := rwa_irb_pre_floor,
        rwa_final_post_floor := rwa_final,
        binding := rwa_final > rwa_irb_pre_floor + 1e-12,
        standardized_cre_details := std_cre_details } }

/-- The public entry point calculate_loan_capital.  The string-to-enum
coercion layer (lines 125-157 and 763-846) is upstream of every claim and is
not embedded: the approach, exposure type and rating bucket arrive as the
already-coerced enumeration values; balance, amortization term and interest
rate are accepted by the source and never used in any capital formula, so
they are omitted. -/
def calculate_loan_capital (approach : Approach) (ead : ℝ)
    (maturity_months : ℤ) (pd lgd : Option ℝ)
    (exposure_type : Option ExposureType)
    (rating_bucket : Option RatingBucket) (is_regulatory_retail : Bool)
    (is_prudent_mortgage : Bool) (capital_ratio : ℝ) (jurisdiction : String)
    (apply_bcbs_baseline_floors : Bool)
    (collateral_type : Option CollateralKind) (property_value : Option ℝ)
    (property_income_dependent : Bool)
    (counterparty_type : Option ExposureType) : CalcResult :=
  let cp : ExposureType := counterparty_type.getD .CORPORATE
  let jur := normalize_jurisdiction jurisdiction
  let floor_regime := resolve_floor_regime jur apply_bcbs_baseline_floors
  match approach.method with
  | .standardized =>
    let rwcd : ℝ × Option CreDetails × String :=
      if approach.regime = .basel3 then
        let p := get_standardized_risk_weight_basel3 exposure_type
          rating_bucket (some ead) property_value property_income_dependent
          (some cp)
        (p.1, p.2, "Basel III")
      else
        (get_standardized_risk_weight_basel2 exposure_type rating_bucket
          is_regulatory_retail is_prudent_mortgage, none, "Basel II")
    let rw := rwcd.1
    let rwa := ead * rw
    CalcResult.std
      { approach_enum := approach, version := rwcd.2.2, jurisdiction := jur,
        floor_regime := floor_regime, exposure_type_enum := exposure_type,
        rating_bucket_enum := rating_bucket,
        collateral_type := collateral_type, risk_weight := rw, EAD := ead,
        property_value := property_value,
        LTV := (match property_value with
          | some pv => if 0 < pv then some (ead / pv) else none
          | none => none),
        property_income_dependent := property_income_dependent, RWA := rwa,
        capital_ratio := capital_ratio,
        capital_required := rwa * capital_ratio, cre_details := rwcd.2.1 }
  | .irb =>
    match asset_class_of exposure_type with
    | none =>
      CalcResult.stub
        { approach_enum := approach,
          notes := "IRB stub - asset class not yet implemented." }
    | some asset_class_key =>
      let p := irb_params approach asset_class_key floor_regime collateral_type
      let irb_result := calculate_irb_asrf asset_class_key ead pd lgd
        maturity_months capital_ratio approach p.pd_floors p.lgd_defaults
        p.scaling_factor p.irb_mode p.lgd_mode p.lgd_floor_policy jur
        floor_regime collateral_type
      if approach.regime = .basel3 then
        let sp := get_standardized_risk_weight_basel3 exposure_type
          rating_bucket (some ead) property_value property_income_dependent
          (some cp)
        CalcResult.irb
          (apply_basel3_output_floor irb_result ead capital_ratio sp.1 sp.2)
      else
        CalcResult.irb irb_result

/-! ## Field accessors used to state which entries a result carries -/

/-- Does the result dictionary carry the resolved approach identifiers. -/
def CalcResult.hasApproachId : CalcResult → Bool
  | .std _ => true
  | .irb _ => true
  | .stub _ => true
  | .error _ => false

/-- The EAD entry of the result, when the dictionary has one. -/
def CalcResult.eadField : CalcResult → Option ℝ
  | .std r => some r.EAD
  | .irb r => some r.EAD
  | _ => none

/-- The RWA entry of the result, when the dictionary has one. -/
def CalcResult.rwaField : CalcResult → Option ℝ
  | .std r => some r.RWA
  | .irb r => some r.RWA
  | _ => none

/-- The capital_required entry of the result, when the dictionary has one. -/
def CalcResult.capitalRequiredField : CalcResult → Option ℝ
  | .std r => some r.capital_required
  | .irb r => some r.capital_required
  | _ => none

/-- The capital_ratio entry of the result, when the dictionary has one. -/
def CalcResult.capitalRatioField : CalcResult → Option ℝ
  | .std r => some r.capital_ratio
  | .irb r => some r.capital_ratio
  | _ => none

/-- Whether the result is the IRB stub terminal state. -/
def CalcResult.isStub : CalcResult → Bool
  | .stub _ => true
  | _ => false

/-- Whether the result is the unsupported-combination error record. -/
def CalcResult.isError : CalcResult → Bool
  | .error _ => true
  | _ => false

/-- The IRB result record, when the calculation took the (non-stub) IRB path. -/
def CalcResult.irbRes : CalcResult → Option IrbResult
  | .irb r => some r
  | _ => none

/-! ## Analytic facts about the standard normal distribution -/

lemma stdNormal_pdf_eq (x : ℝ) :
    gaussianPDFReal 0 1 x =
      (Real.sqrt (2 * Real.pi))⁻¹ * Real.exp (-(x ^ 2) / 2) := by
  simp [gaussianPDFReal]

lemma stdNormal_pdf_pos (x : ℝ) : 0 < gaussianPDFReal 0 1 x :=
  gaussianPDFReal_pos 0 1 x one_ne_zero

lemma stdNormal_pdf_integrable : Integrable (gaussianPDFReal 0 1) :=
  integrable_gaussianPDFReal 0 1

lemma sqrt_two_pi_sq : Real.sqrt (2 * Real.pi) ^ 2 = 2 * Real.pi :=
  Real.sq_sqrt (by positivity)

lemma sqrt_two_pi_bounds :
    2.5 ≤ Real.sqrt (2 * Real.pi) ∧ Real.sqrt (2 * Real.pi) ≤ 3 := by
  have hs := sqrt_two_pi_sq
  have hn : 0 ≤ Real.sqrt (2 * Real.pi) := Real.sqrt_nonneg _
  have h1 : (3.1415 : ℝ) < Real.pi := Real.pi_gt_d4
  have h2 : Real.pi < 3.15 := by
    have := Real.pi_lt_d2
    linarith
  constructor <;> nlinarith [hs, hn, h1, h2]

lemma stdNormal_pdf_le (x : ℝ) :
    gaussianPDFReal 0 1 x ≤ (Real.sqrt (2 * Real.pi))⁻¹ := by
  rw [stdNormal_pdf_eq]
  have h1 : Real.exp (-(x ^ 2) / 2) ≤ 1 := by
    rw [Real.exp_le_one_iff]
    nlinarith [sq_nonneg x]
  have h2 : 0 < (Real.sqrt (2 * Real.pi))⁻¹ := by
    have := sqrt_two_pi_bounds.1
    positivity
  nlinarith

/-- Difference of CDF values as an integral over the interval in between. -/
lemma stdNormalCDF_sub {a b : ℝ} (hab : a ≤ b) :
    stdNormalCDF b - stdNormalCDF a = ∫ t in Ioc a b, gaussianPDFReal 0 1 t := by
  rw [show (∫ t in Ioc a b, gaussianPDFReal 0 1 t) =
      ∫ t in a..b, gaussianPDFReal 0 1 t from
    (intervalIntegral.integral_of_le hab).symm]
  exact intervalIntegral.integral_Iic_sub_Iic stdNormal_pdf_integrable.integrableOn
    stdNormal_pdf_integrable.integrableOn

lemma stdNormalCDF_strictMono : StrictMono stdNormalCDF := by
  intro a b hab
  have h := stdNormalCDF_sub hab.le
  have hpos : 0 < ∫ t in Ioc a b, gaussianPDFReal 0 1 t := by
    rw [setIntegral_pos_iff_support_of_nonneg_ae
      (ae_of_all _ fun t => (stdNormal_pdf_pos t).le)
      stdNormal_pdf_integrable.integrableOn]
    have hsupp : (Function.support (gaussianPDFReal 0 1)) ∩ Ioc a b = Ioc a b := by
      rw [inter_eq_right]
      intro t _
      exact (stdNormal_pdf_pos t).ne'
    rw [hsupp, Real.volume_Ioc]
    simpa using hab
  linarith

lemma stdNormalCDF_mono : Monotone stdNormalCDF := stdNormalCDF_strictMono.monotone

lemma stdNormalCDF_pos (x : ℝ) : 0 < stdNormalCDF x := by
  rw [show stdNormalCDF x = ∫ t in Iic x, gaussianPDFReal 0 1 t from rfl,
    setIntegral_pos_iff_support_of_nonneg_ae
      (ae_of_all _ fun t => (stdNormal_pdf_pos t).le)
      stdNormal_pdf_integrable.integrableOn]
  have hsupp : (Function.support (gaussianPDFReal 0 1)) ∩ Iic x = Iic x := by
    rw [inter_eq_right]
    intro t _
    exact (stdNormal_pdf_pos t).ne'
  rw [hsupp]
  simp

lemma stdNormalCDF_add_tail (x : ℝ) :
    stdNormalCDF x + (∫ t in Ioi x, gaussianPDFReal 0 1 t) = 1 := by
  rw [show stdNormalCDF x = ∫ t in Iic x, gaussianPDFReal 0 1 t from rfl,
    intervalIntegral.integral_Iic_add_Ioi stdNormal_pdf_integrable.integrableOn
      stdNormal_pdf_integrable.integrableOn]
  exact integral_gaussianPDFReal_eq_one 0 one_ne_zero

lemma stdNormalCDF_lt_one (x : ℝ) : stdNormalCDF x < 1 := by
  have h := stdNormalCDF_add_tail x
  have hpos : 0 < ∫ t in Ioi x, gaussianPDFReal 0 1 t := by
    rw [setIntegral_pos_iff_support_of_nonneg_ae
      (ae_of_all _ fun t => (stdNormal_pdf_pos t).le)
      stdNormal_pdf_integrable.integrableOn]
    have hsupp : (Function.support (gaussianPDFReal 0 1)) ∩ Ioi x = Ioi x := by
      rw [inter_eq_right]
      intro t _
      exact (stdNormal_pdf_pos t).ne'
    rw [hsupp]
    simp [Real.volume_Ioi]
  linarith

lemma stdNormalCDF_continuous : Continuous stdNormalCDF := by
  rw [Metric.continuous_iff]
  intro a ε hε
  refine ⟨ε * Real.sqrt (2 * Real.pi), by nlinarith [sqrt_two_pi_bounds.1], ?_⟩
  intro b hb
  have key : ∀ u v : ℝ, u ≤ v →
      stdNormalCDF v - stdNormalCDF u ≤ (Real.sqrt (2 * Real.pi))⁻¹ * (v - u) := by
    intro u v huv
    rw [stdNormalCDF_sub huv]
    calc (∫ t in Ioc u v, gaussianPDFReal 0 1 t) ≤
        ∫ _ in Ioc u v, (Real.sqrt (2 * Real.pi))⁻¹ := by
          apply setIntegral_mono_on stdNormal_pdf_integrable.integrableOn
            (integrableOn_const.mpr (Or.inr (by simp [Real.volume_Ioc])))
            measurableSet_Ioc
          intro t _
          exact stdNormal_pdf_le t
      _ = (Real.sqrt (2 * Real.pi))⁻¹ * (v - u) := by
          rw [setIntegral_const, Real.volume_Ioc, smul_eq_mul]
          rcases le_total u v with h | h
          · rw [ENNReal.toReal_ofReal (by linarith)]
            ring
          · have hvu : v = u := le_antisymm h huv
            simp [hvu]
    -- the calc closes the goal
  have hmono := stdNormalCDF_mono
  have hsq : 0 < Real.sqrt (2 * Real.pi) := by nlinarith [sqrt_two_pi_bounds.1]
  rw [Real.dist_eq] at hb ⊢
  rcases le_total a b with h | h
  · have h1 := key a b h
    have h2 : stdNormalCDF a ≤ stdNormalCDF b := hmono h
    have h3 : |b - a| = b - a := abs_of_nonneg (by linarith)
    rw [h3] at hb
    rw [abs_of_nonneg (by linarith)]
    calc stdNormalCDF b - stdNormalCDF a ≤ (Real.sqrt (2 * Real.pi))⁻¹ * (b - a) := h1
      _ < (Real.sqrt (2 * Real.pi))⁻¹ * (ε * Real.sqrt (2 * Real.pi)) := by
          apply mul_lt_mul_of_pos_left hb (by positivity)
      _ = ε := by field_simp
  · have h1 := key b a h
    have h2 : stdNormalCDF b ≤ stdNormalCDF a := hmono h
    have h3 : |b - a| = a - b := by
      rw [abs_of_nonpos (by linarith)]
      ring
    rw [h3] at hb
    rw [abs_of_nonpos (by linarith), neg_sub]
    calc stdNormalCDF a - stdNormalCDF b ≤ (Real.sqrt (2 * Real.pi))⁻¹ * (a - b) := h1
      _ < (Real.sqrt (2 * Real.pi))⁻¹ * (ε * Real.sqrt (2 * Real.pi)) := by
          apply mul_lt_mul_of_pos_left hb (by positivity)
      _ = ε := by field_simp

/-- Derivative of the standard normal density. -/
lemma hasDerivAt_stdNormal_pdf (t : ℝ) :
    HasDerivAt (gaussianPDFReal 0 1) (-t * gaussianPDFReal 0 1 t) t := by
  have h1 : HasDerivAt (fun s : ℝ => s ^ 2) (2 * t) t := by
    simpa using hasDerivAt_pow 2 t
  have h0 : HasDerivAt (fun s : ℝ => -(s ^ 2) / 2) (-t) t := by
    have h2 := (h1.neg).div_const 2
    convert h2 using 1
    ring
  have h3 : HasDerivAt (fun s : ℝ => Real.exp (-(s ^ 2) / 2))
      (Real.exp (-(t ^ 2) / 2) * -t) t := h0.exp
  have h4 := h3.const_mul ((Real.sqrt (2 * Real.pi))⁻¹)
  have hfe : (fun s : ℝ => (Real.sqrt (2 * Real.pi))⁻¹ * Real.exp (-(s ^ 2) / 2)) =
      gaussianPDFReal 0 1 := by
    funext s
    rw [stdNormal_pdf_eq]
  rw [hfe] at h4
  convert h4 using 1
  rw [stdNormal_pdf_eq]
  ring

/-- Integrability of t times the standard normal density. -/
lemma integrable_neg_mul_pdf : Integrable (fun t : ℝ => -t * gaussianPDFReal 0 1 t) := by
  have h1 : Integrable (fun x : ℝ => x * Real.exp (-(1/2 : ℝ) * x ^ 2)) :=
    integrable_mul_exp_neg_mul_sq (by norm_num)
  have h2 := (h1.const_mul (-(Real.sqrt (2 * Real.pi))⁻¹))
  have hfe : (fun x : ℝ => -(Real.sqrt (2 * Real.pi))⁻¹ * (x * Real.exp (-(1/2 : ℝ) * x ^ 2))) =
      fun t : ℝ => -t * gaussianPDFReal 0 1 t := by
    funext s
    rw [stdNormal_pdf_eq]
    rw [show -(1/2 : ℝ) * s ^ 2 = -(s ^ 2) / 2 by ring]
    ring
  rwa [hfe] at h2

lemma tendsto_stdNormal_pdf_atBot :
    Tendsto (gaussianPDFReal 0 1) atBot (nhds 0) := by
  have hsq : Tendsto (fun t : ℝ => t ^ 2) atBot atTop := by
    have h := (tendsto_pow_atTop (two_ne_zero)).comp
      (tendsto_neg_atBot_atTop (β := ℝ))
    have hfe : ((fun x : ℝ => x ^ 2) ∘ Neg.neg) = fun t : ℝ => t ^ 2 := by
      funext t
      simp only [Function.comp_apply]
      ring
    rwa [hfe] at h
  have h1 : Tendsto (fun t : ℝ => -(t ^ 2) / 2) atBot atBot :=
    (tendsto_neg_atTop_atBot.comp hsq).atBot_div_const two_pos
  have h2 : Tendsto (fun t : ℝ => Real.exp (-(t ^ 2) / 2)) atBot (nhds 0) :=
    Real.tendsto_exp_atBot.comp h1
  have h3 := h2.const_mul ((Real.sqrt (2 * Real.pi))⁻¹)
  rw [mul_zero] at h3
  have hfe : (fun t : ℝ => (Real.sqrt (2 * Real.pi))⁻¹ * Real.exp (-(t ^ 2) / 2)) =
      gaussianPDFReal 0 1 := by
    funext s
    rw [stdNormal_pdf_eq]
  rwa [hfe] at h3

/-- The integral of minus t times the density over a left half line. -/
lemma integral_neg_mul_pdf_Iic (a : ℝ) :
    ∫ t in Iic a, -t * gaussianPDFReal 0 1 t = gaussianPDFReal 0 1 a := by
  have h := integral_Iic_of_hasDerivAt_of_tendsto' (a := a)
    (fun x _ => hasDerivAt_stdNormal_pdf x)
    integrable_neg_mul_pdf.integrableOn tendsto_stdNormal_pdf_atBot
  simpa using h

/-- Mills-ratio style bound on the left tail. -/
lemma stdNormal_left_tail {a : ℝ} (ha : a < 0) :
    stdNormalCDF a ≤ (-a)⁻¹ * gaussianPDFReal 0 1 a := by
  have hmono : ∀ t ∈ Iic a,
      gaussianPDFReal 0 1 t ≤ (-a)⁻¹ * (-t * gaussianPDFReal 0 1 t) := by
    intro t ht
    have h1 : (0 : ℝ) < -a := by linarith
    have h2 : -a ≤ -t := by
      have : t ≤ a := ht
      linarith
    have h3 := stdNormal_pdf_pos t
    have h4 : 1 ≤ (-a)⁻¹ * -t := by
      rw [inv_mul_eq_div, le_div_iff₀ h1]
      linarith
    nlinarith
  calc stdNormalCDF a = ∫ t in Iic a, gaussianPDFReal 0 1 t := rfl
    _ ≤ ∫ t in Iic a, (-a)⁻¹ * (-t * gaussianPDFReal 0 1 t) := by
        apply setIntegral_mono_on stdNormal_pdf_integrable.integrableOn
          ((integrable_neg_mul_pdf.const_mul _).integrableOn) measurableSet_Iic hmono
    _ = (-a)⁻¹ * ∫ t in Iic a, -t * gaussianPDFReal 0 1 t := by
        rw [integral_mul_left]
    _ = (-a)⁻¹ * gaussianPDFReal 0 1 a := by rw [integral_neg_mul_pdf_Iic]

/-- The integral of exp(-t/2) over a right half line. -/
lemma integral_exp_neg_half_Ioi (b : ℝ) :
    ∫ t in Ioi b, Real.exp (-t / 2) = 2 * Real.exp (-b / 2) := by
  have hderiv : ∀ x ∈ Ici b,
      HasDerivAt (fun t : ℝ => -2 * Real.exp (-t / 2)) (Real.exp (-x / 2)) x := by
    intro x _
    have h0 : HasDerivAt (fun t : ℝ => -t / 2) (-(1 : ℝ) / 2) x := by
      have h1 := ((hasDerivAt_id x).neg).div_const 2
      convert h1 using 1
    have h2 : HasDerivAt (fun t : ℝ => Real.exp (-t / 2))
        (Real.exp (-x / 2) * (-(1 : ℝ) / 2)) x := h0.exp
    have h3 := h2.const_mul (-2 : ℝ)
    convert h3 using 1
    ring
  have hint : IntegrableOn (fun t : ℝ => Real.exp (-t / 2)) (Ioi b) := by
    have h := exp_neg_integrableOn_Ioi b (show (0:ℝ) < 1/2 by norm_num)
    have hfe : (fun x : ℝ => Real.exp (-(1/2 : ℝ) * x)) =
        fun t : ℝ => Real.exp (-t / 2) := by
      funext s
      rw [show -(1/2 : ℝ) * s = -s / 2 by ring]
    rwa [hfe] at h
  have htend : Tendsto (fun t : ℝ => -2 * Real.exp (-t / 2)) atTop (nhds 0) := by
    have h1 : Tendsto (fun t : ℝ => -t / 2) atTop atBot :=
      tendsto_neg_atTop_atBot.atBot_div_const two_pos
    have h2 := (Real.tendsto_exp_atBot.comp h1).const_mul (-2 : ℝ)
    rw [mul_zero] at h2
    exact h2
  have h := integral_Ioi_of_hasDerivAt_of_tendsto' hderiv hint htend
  rw [h]
  ring

/-- Bound on the right tail: for b at least 1 the upper tail is at most
exp(-b/2). -/
lemma stdNormal_right_tail {b : ℝ} (hb : 1 ≤ b) :
    1 - stdNormalCDF b ≤ Real.exp (-b / 2) := by
  have htail : 1 - stdNormalCDF b = ∫ t in Ioi b, gaussianPDFReal 0 1 t := by
    have := stdNormalCDF_add_tail b
    linarith
  have hup : ∀ t ∈ Ioi b,
      gaussianPDFReal 0 1 t ≤ (Real.sqrt (2 * Real.pi))⁻¹ * Real.exp (-t / 2) := by
    intro t ht
    have ht1 : (1 : ℝ) ≤ t := le_trans hb (le_of_lt ht)
    rw [stdNormal_pdf_eq]
    have h1 : -(t ^ 2) / 2 ≤ -t / 2 := by nlinarith
    have h2 := Real.exp_le_exp.mpr h1
    have h3 : (0 : ℝ) < (Real.sqrt (2 * Real.pi))⁻¹ := by
      have := sqrt_two_pi_bounds.1
      positivity
    nlinarith
  have hintc : IntegrableOn
      (fun t : ℝ => (Real.sqrt (2 * Real.pi))⁻¹ * Real.exp (-t / 2)) (Ioi b) := by
    have h := exp_neg_integrableOn_Ioi b (show (0:ℝ) < 1/2 by norm_num)
    have hfe : (fun x : ℝ => Real.exp (-(1/2 : ℝ) * x)) =
        fun t : ℝ => Real.exp (-t / 2) := by
      funext s
      rw [show -(1/2 : ℝ) * s = -s / 2 by ring]
    rw [hfe] at h
    exact h.const_mul _
  have hs1 := sqrt_two_pi_bounds.1
  have hs0 : (0 : ℝ) < Real.sqrt (2 * Real.pi) := by linarith
  calc 1 - stdNormalCDF b = ∫ t in Ioi b, gaussianPDFReal 0 1 t := htail
    _ ≤ ∫ t in Ioi b, (Real.sqrt (2 * Real.pi))⁻¹ * Real.exp (-t / 2) := by
        apply setIntegral_mono_on stdNormal_pdf_integrable.integrableOn hintc
          measurableSet_Ioi hup
    _ = (Real.sqrt (2 * Real.pi))⁻¹ * ∫ t in Ioi b, Real.exp (-t / 2) := by
        rw [integral_mul_left]
    _ = (Real.sqrt (2 * Real.pi))⁻¹ * (2 * Real.exp (-b / 2)) := by
        rw [integral_exp_neg_half_Ioi]
    _ ≤ Real.exp (-b / 2) := by
        have he : (0 : ℝ) < Real.exp (-b / 2) := Real.exp_pos _
        rw [inv_mul_le_iff₀ hs0]
        nlinarith

/-- The CDF attains every value strictly between 0 and 1. -/
lemma stdNormalCDF_surj {p : ℝ} (hp0 : 0 < p) (hp1 : p < 1) :
    ∃ x, stdNormalCDF x = p := by
  set a : ℝ := -(1 / p + 1) with ha_def
  have ha : a < 0 := by
    have : 0 < 1 / p := by positivity
    rw [ha_def]
    linarith
  have hlow : stdNormalCDF a < p := by
    have h1 := stdNormal_left_tail ha
    have h2 : gaussianPDFReal 0 1 a ≤ (Real.sqrt (2 * Real.pi))⁻¹ := stdNormal_pdf_le a
    have hs1 := sqrt_two_pi_bounds.1
    have hs0 : (0 : ℝ) < Real.sqrt (2 * Real.pi) := by linarith
    have hpdf : gaussianPDFReal 0 1 a ≤ 1 := by
      have : (Real.sqrt (2 * Real.pi))⁻¹ ≤ 1 := by
        rw [inv_le_one_iff₀]
        right
        linarith
      linarith
    have hna : (0 : ℝ) < -a := by linarith
    have h3 : stdNormalCDF a ≤ (-a)⁻¹ := by
      calc stdNormalCDF a ≤ (-a)⁻¹ * gaussianPDFReal 0 1 a := h1
        _ ≤ (-a)⁻¹ * 1 := by
            apply mul_le_mul_of_nonneg_left hpdf
            positivity
        _ = (-a)⁻¹ := mul_one _
    have h4 : (-a)⁻¹ < p := by
      rw [inv_lt_iff_one_lt_mul₀ hna]
      have : -a = 1 / p + 1 := by rw [ha_def]; ring
      rw [this]
      have : p * (1 / p) = 1 := by field_simp
      nlinarith
    linarith
  set b : ℝ := max 1 (1 - 2 * Real.log (1 - p)) with hb_def
  have hb1 : (1 : ℝ) ≤ b := le_max_left _ _
  have hhigh : p < stdNormalCDF b := by
    have h1 := stdNormal_right_tail hb1
    have h2 : 1 - 2 * Real.log (1 - p) ≤ b := le_max_right _ _
    have h3 : -b / 2 ≤ Real.log (1 - p) - 1 / 2 := by linarith
    have h4 : Real.exp (-b / 2) ≤ Real.exp (Real.log (1 - p) - 1 / 2) :=
      Real.exp_le_exp.mpr h3
    have h5 : Real.exp (Real.log (1 - p) - 1 / 2) =
        (1 - p) / Real.exp (1 / 2 : ℝ) := by
      rw [Real.exp_sub, Real.exp_log (by linarith)]
    have h6 : (1 : ℝ) < Real.exp (1 / 2 : ℝ) := by
      rw [show (1:ℝ) = Real.exp 0 by simp]
      apply Real.exp_lt_exp.mpr
      norm_num
    have h7 : Real.exp (-b / 2) < 1 - p := by
      rw [h5] at h4
      have := div_lt_self (show (0:ℝ) < 1 - p by linarith) h6
      linarith
    linarith
  have hab : a ≤ b := by linarith
  have hicc : p ∈ Icc (stdNormalCDF a) (stdNormalCDF b) :=
    ⟨le_of_lt hlow, le_of_lt hhigh⟩
  have := intermediate_value_Icc hab stdNormalCDF_continuous.continuousOn
  obtain ⟨x, _, hx⟩ := this hicc
  exact ⟨x, hx⟩

/-- The quantile is a genuine right inverse on (0, 1). -/
lemma stdNormalCDF_quantile {p : ℝ} (hp0 : 0 < p) (hp1 : p < 1) :
    stdNormalCDF (stdNormalQuantile p) = p := by
  rw [stdNormalQuantile, dif_pos (stdNormalCDF_surj hp0 hp1)]
  exact (stdNormalCDF_surj hp0 hp1).choose_spec

/-- When the CDF at y is below p, the quantile of p lies above y. -/
lemma lt_quantile_of_cdf_lt {p y : ℝ} (hp0 : 0 < p) (hp1 : p < 1)
    (h : stdNormalCDF y < p) : y < stdNormalQuantile p := by
  by_contra hle
  push_neg at hle
  have := stdNormalCDF_mono hle
  rw [stdNormalCDF_quantile hp0 hp1] at this
  linarith

/-- Numeric bound: exp 1 to the sixth power exceeds 403. -/
lemma exp_six_ge : (403 : ℝ) ≤ Real.exp 6 := by
  have h1 : Real.exp 6 = Real.exp 1 ^ (6 : ℕ) := by
    rw [show (6:ℝ) = ((6:ℕ):ℝ) * 1 by norm_num, Real.exp_nat_mul]
  rw [h1]
  have h2 : (2.7182818283 : ℝ) ≤ Real.exp 1 := Real.exp_one_gt_d9.le
  calc (403 : ℝ) ≤ (2.7182818283 : ℝ) ^ (6 : ℕ) := by norm_num
    _ ≤ Real.exp 1 ^ (6 : ℕ) := by
        apply pow_le_pow_left₀ (by norm_num) h2

/-- Numeric bound: exp 8 exceeds 2980. -/
lemma exp_eight_ge : (2980 : ℝ) ≤ Real.exp 8 := by
  have h1 : Real.exp 8 = Real.exp 1 ^ (8 : ℕ) := by
    rw [show (8:ℝ) = ((8:ℕ):ℝ) * 1 by norm_num, Real.exp_nat_mul]
  rw [h1]
  have h2 : (2.7182818283 : ℝ) ≤ Real.exp 1 := Real.exp_one_gt_d9.le
  calc (2980 : ℝ) ≤ (2.7182818283 : ℝ) ^ (8 : ℕ) := by norm_num
    _ ≤ Real.exp 1 ^ (8 : ℕ) := by
        apply pow_le_pow_left₀ (by norm_num) h2

/-- Numeric bound: exp 2 is below 7.4. -/
lemma exp_two_le : Real.exp 2 ≤ (7.4 : ℝ) := by
  have h1 : Real.exp 2 = Real.exp 1 ^ (2 : ℕ) := by
    rw [show (2:ℝ) = ((2:ℕ):ℝ) * 1 by norm_num, Real.exp_nat_mul]
  rw [h1]
  have h2 : Real.exp 1 ≤ (2.7182818286 : ℝ) := Real.exp_one_lt_d9.le
  calc Real.exp 1 ^ (2 : ℕ) ≤ (2.7182818286 : ℝ) ^ (2 : ℕ) := by
        apply pow_le_pow_left₀ (Real.exp_pos 1).le h2
    _ ≤ (7.4 : ℝ) := by norm_num

/-- The standard normal CDF at -3.6 is below the 3 basis point level. -/
lemma stdNormalCDF_neg36_lt : stdNormalCDF (-3.6) < 0.0003 := by
  have h1 := stdNormal_left_tail (show (-3.6 : ℝ) < 0 by norm_num)
  have hs1 := sqrt_two_pi_bounds.1
  have hs0 : (0 : ℝ) < Real.sqrt (2 * Real.pi) := by linarith
  have hpdf : gaussianPDFReal 0 1 (-3.6) ≤ (2.5 : ℝ)⁻¹ * Real.exp (-(6.48 : ℝ)) := by
    rw [stdNormal_pdf_eq, show -((-3.6 : ℝ) ^ 2) / 2 = -(6.48 : ℝ) by norm_num]
    have he := (Real.exp_pos (-(6.48 : ℝ))).le
    apply mul_le_mul_of_nonneg_right _ he
    rw [inv_le_inv₀ hs0 (by norm_num)]
    exact hs1
  have hexp : Real.exp (-(6.48 : ℝ)) ≤ 1 / 403 := by
    have ha : Real.exp (-(6.48 : ℝ)) ≤ Real.exp (-(6 : ℝ)) :=
      Real.exp_le_exp.mpr (by norm_num)
    have hb : Real.exp (-(6 : ℝ)) = (Real.exp 6)⁻¹ := Real.exp_neg 6
    have hc : (Real.exp 6)⁻¹ ≤ 1 / 403 := by
      rw [inv_le_iff_one_le_mul₀ (by linarith [exp_six_ge])]
      have := exp_six_ge
      nlinarith
    calc Real.exp (-(6.48 : ℝ)) ≤ Real.exp (-(6 : ℝ)) := ha
      _ = (Real.exp 6)⁻¹ := hb
      _ ≤ 1 / 403 := hc
  have hfinal : stdNormalCDF (-3.6) ≤ (3.6 : ℝ)⁻¹ * ((2.5 : ℝ)⁻¹ * (1 / 403)) := by
    have hneg : (-(-3.6 : ℝ))⁻¹ = (3.6 : ℝ)⁻¹ := by norm_num
    rw [hneg] at h1
    calc stdNormalCDF (-3.6) ≤ (3.6 : ℝ)⁻¹ * gaussianPDFReal 0 1 (-3.6) := h1
      _ ≤ (3.6 : ℝ)⁻¹ * ((2.5 : ℝ)⁻¹ * Real.exp (-(6.48 : ℝ))) := by
          apply mul_le_mul_of_nonneg_left hpdf (by norm_num)
      _ ≤ (3.6 : ℝ)⁻¹ * ((2.5 : ℝ)⁻¹ * (1 / 403)) := by
          apply mul_le_mul_of_nonneg_left _ (by norm_num)
          apply mul_le_mul_of_nonneg_left hexp (by norm_num)
  calc stdNormalCDF (-3.6) ≤ (3.6 : ℝ)⁻¹ * ((2.5 : ℝ)⁻¹ * (1 / 403)) := hfinal
    _ < 0.0003 := by norm_num

/-- The standard normal CDF at 1 is below 0.999. -/
lemma stdNormalCDF_one_lt : stdNormalCDF 1 < 0.999 := by
  have htail : 1 - stdNormalCDF 1 = ∫ t in Ioi (1 : ℝ), gaussianPDFReal 0 1 t := by
    have := stdNormalCDF_add_tail 1
    linarith
  have hs2 := sqrt_two_pi_bounds.2
  have hs1 := sqrt_two_pi_bounds.1
  have hs0 : (0 : ℝ) < Real.sqrt (2 * Real.pi) := by linarith
  have hsub : (∫ t in Ioc (1 : ℝ) 2, gaussianPDFReal 0 1 t) ≤
      ∫ t in Ioi (1 : ℝ), gaussianPDFReal 0 1 t := by
    apply setIntegral_mono_set stdNormal_pdf_integrable.integrableOn
      (ae_of_all _ fun t => (stdNormal_pdf_pos t).le)
      (HasSubset.Subset.eventuallyLE Ioc_subset_Ioi_self)
  have hpw : ∀ t ∈ Ioc (1 : ℝ) 2,
      (3 : ℝ)⁻¹ * Real.exp (-(2 : ℝ)) ≤ gaussianPDFReal 0 1 t := by
    intro t ht
    rw [stdNormal_pdf_eq]
    have ht1 : (1 : ℝ) < t := ht.1
    have ht2 : t ≤ 2 := ht.2
    have h1 : -(2 : ℝ) ≤ -(t ^ 2) / 2 := by nlinarith
    have h2 := Real.exp_le_exp.mpr h1
    have h3 : (3 : ℝ)⁻¹ ≤ (Real.sqrt (2 * Real.pi))⁻¹ := by
      rw [inv_le_inv₀ (by norm_num) hs0]
      exact hs2
    have h4 := (Real.exp_pos (-(2 : ℝ))).le
    nlinarith [Real.exp_pos (-(t ^ 2) / 2)]
  have hconst : (∫ _ in Ioc (1 : ℝ) 2, (3 : ℝ)⁻¹ * Real.exp (-(2 : ℝ))) =
      (3 : ℝ)⁻¹ * Real.exp (-(2 : ℝ)) := by
    rw [setIntegral_const, Real.volume_Ioc, smul_eq_mul]
    norm_num
  have hlow : (3 : ℝ)⁻¹ * Real.exp (-(2 : ℝ)) ≤
      ∫ t in Ioc (1 : ℝ) 2, gaussianPDFReal 0 1 t := by
    rw [← hconst]
    apply setIntegral_mono_on
      (integrableOn_const.mpr (Or.inr (by simp [Real.volume_Ioc])))
      stdNormal_pdf_integrable.integrableOn measurableSet_Ioc hpw
  have hexp2 : (1 / 7.4 : ℝ) ≤ Real.exp (-(2 : ℝ)) := by
    rw [Real.exp_neg]
    calc (1 / 7.4 : ℝ) = (7.4 : ℝ)⁻¹ := one_div _
      _ ≤ (Real.exp 2)⁻¹ := by
          rw [inv_le_inv₀ (by norm_num) (Real.exp_pos 2)]
          exact exp_two_le
  have : (0.001 : ℝ) ≤ 1 - stdNormalCDF 1 := by
    rw [htail]
    calc (0.001 : ℝ) ≤ (3 : ℝ)⁻¹ * (1 / 7.4 : ℝ) := by norm_num
      _ ≤ (3 : ℝ)⁻¹ * Real.exp (-(2 : ℝ)) := by
          apply mul_le_mul_of_nonneg_left hexp2 (by norm_num)
      _ ≤ ∫ t in Ioc (1 : ℝ) 2, gaussianPDFReal 0 1 t := hlow
      _ ≤ ∫ t in Ioi (1 : ℝ), gaussianPDFReal 0 1 t := hsub
  linarith

/-- Quantiles of probabilities at or above 3 basis points stay above -3.6. -/
lemma quantile_ge_neg36 {p : ℝ} (hp : 0.0003 ≤ p) (hp1 : p < 1) :
    (-3.6 : ℝ) ≤ stdNormalQuantile p := by
  have h := lt_quantile_of_cdf_lt (p := p) (y := -3.6) (by linarith) hp1
    (lt_of_lt_of_le stdNormalCDF_neg36_lt hp)
  linarith

/-- The 99.9 percent quantile is at least 1. -/
lemma one_le_quantile_999 : (1 : ℝ) ≤ stdNormalQuantile 0.999 := by
  have h := lt_quantile_of_cdf_lt (p := 0.999) (y := 1) (by norm_num)
    (by norm_num) (by simpa using stdNormalCDF_one_lt)
  linarith

/-! ## Bounds on the ASRF building blocks -/

lemma one_sub_exp_neg50_pos : 0 < 1 - Real.exp (-50 : ℝ) := by
  have := Real.exp_lt_one_iff.mpr (show (-50 : ℝ) < 0 by norm_num)
  linarith

/-- The correlation guard never fires: with the denominator nonzero the
correlation is the plain formula. -/
lemma supervisory_correlation_eq (pd : ℝ) :
    supervisory_correlation pd =
      0.12 * (1 - Real.exp (-50 * max pd 1e-12)) / (1 - Real.exp (-50)) +
        0.24 * (1 - (1 - Real.exp (-50 * max pd 1e-12)) / (1 - Real.exp (-50))) := by
  rw [supervisory_correlation]
  have hd : (1.0 : ℝ) - Real.exp (-50.0) ≠ 0 := by
    have := one_sub_exp_neg50_pos
    norm_num
    linarith
  simp only [if_pos hd]
  norm_num

/-- Bounds on the supervisory correlation for normalized PD in (0, 1]. -/
lemma supervisory_correlation_bounds {pd : ℝ} (h0 : 0 < pd) (h1 : pd ≤ 1) :
    0.12 ≤ supervisory_correlation pd ∧ supervisory_correlation pd ≤ 0.24 := by
  rw [supervisory_correlation_eq]
  have hD := one_sub_exp_neg50_pos
  set E := Real.exp (-50 * max pd 1e-12) with hE_def
  have hmax0 : (0 : ℝ) < max pd 1e-12 := lt_max_of_lt_left h0
  have hmax1 : max pd 1e-12 ≤ 1 := max_le h1 (by norm_num)
  have hE1 : E < 1 := by
    rw [hE_def, Real.exp_lt_one_iff]
    nlinarith
  have hE2 : Real.exp (-50 : ℝ) ≤ E := by
    rw [hE_def]
    apply Real.exp_le_exp.mpr
    nlinarith
  have hg1 : (1 - E) / (1 - Real.exp (-50)) ≤ 1 := by
    rw [div_le_one hD]
    linarith
  have hg0 : 0 < (1 - E) / (1 - Real.exp (-50)) := by
    apply div_pos (by linarith) hD
  have hsplit : 0.12 * (1 - E) / (1 - Real.exp (-50)) =
      0.12 * ((1 - E) / (1 - Real.exp (-50))) := by ring
  rw [hsplit]
  set g := (1 - E) / (1 - Real.exp (-50)) with hg_def
  constructor <;> nlinarith [hg0, hg1]

/-- For PD at least 3 basis points the maturity coefficient b is small. -/
lemma maturity_b_bounds {pd : ℝ} (h03 : 0.0003 ≤ pd) (h1 : pd ≤ 1) :
    0 ≤ maturity_b pd ∧ maturity_b pd ≤ 0.3224 := by
  rw [maturity_b]
  have hmax : max pd 1e-9 = pd := max_eq_left (by linarith)
  rw [hmax]
  have hlog_le : Real.log pd ≤ 0 := Real.log_nonpos (by linarith) h1
  have hlog_ge : (-8.2 : ℝ) ≤ Real.log pd := by
    have h0003 : (-8.2 : ℝ) ≤ Real.log 0.0003 := by
      rw [Real.le_log_iff_exp_le (by norm_num)]
      have he : Real.exp (-8.2 : ℝ) = (Real.exp 8.2)⁻¹ := Real.exp_neg _
      have hsplit : Real.exp (8.2 : ℝ) = Real.exp 8 * Real.exp 0.2 := by
        rw [← Real.exp_add]
        norm_num
      have h02 : (1.2 : ℝ) ≤ Real.exp 0.2 := by
        have := Real.add_one_le_exp (0.2 : ℝ)
        linarith
      have hbig : (3334 : ℝ) ≤ Real.exp 8.2 := by
        rw [hsplit]
        nlinarith [exp_eight_ge, Real.exp_pos (8 : ℝ)]
      rw [he]
      rw [inv_le_iff_one_le_mul₀ (by linarith)]
      nlinarith
    calc (-8.2 : ℝ) ≤ Real.log 0.0003 := h0003
      _ ≤ Real.log pd := Real.log_le_log (by norm_num) h03
  constructor
  · positivity
  · nlinarith [hlog_le, hlog_ge]

/-- The effective maturity always lands in the interval from 1 to 5 years. -/
lemma maturity_years_bounds (mm : ℤ) :
    1 ≤ maturity_years mm ∧ maturity_years mm ≤ 5 := by
  rw [maturity_years]
  split_ifs with h
  · constructor
    · have h1 : (1.0 : ℝ) ≤ max 1.0 ((mm : ℝ) / 12.0) := le_max_left _ _
      have h2 : (1.0 : ℝ) ≤ min 5.0 (max 1.0 ((mm : ℝ) / 12.0)) :=
        le_min (by norm_num) h1
      linarith
    · have h3 := min_le_left (5.0 : ℝ) (max 1.0 ((mm : ℝ) / 12.0))
      linarith
  · norm_num

/-- With b small the maturity adjustment factor is nonnegative for a
maturity in the 1 to 5 year band. -/
lemma maturity_adjustment_nonneg {M b : ℝ} (hM1 : 1 ≤ M) (hM5 : M ≤ 5)
    (hb0 : 0 ≤ b) (hb : b ≤ 0.3224) : 0 ≤ maturity_adjustment M b := by
  rw [maturity_adjustment]
  apply div_nonneg
  · nlinarith
  · nlinarith

/-- Purely arithmetic core of the Vasicek inequality: with the quantile
bounded below by -3.6, the 99.9 percent quantile at least 1 and the
correlation in the supervisory band, the conditional-quantile argument
dominates the plain quantile. -/
lemma term_ge_quantile_aux {q w t u R : ℝ} (hq36 : -3.6 ≤ q) (h999 : 1 ≤ w)
    (ht_sq : t ^ 2 = 1 - R) (ht_nn : 0 ≤ t) (hu_sq : u ^ 2 = R / (1 - R))
    (hu_nn : 0 ≤ u) (hR1 : 0.12 ≤ R) (hR2 : R ≤ 0.24) :
    q ≤ q / t + u * w := by
  have ht_lo : 0.87 ≤ t := by nlinarith
  have ht_hi : t ≤ 1 := by nlinarith
  have ht_pos : 0 < t := by linarith
  have hut_sq : (u * t) ^ 2 = R := by
    have hne : (1 : ℝ) - R ≠ 0 := by linarith
    rw [mul_pow, hu_sq, ht_sq, div_mul_eq_mul_div, mul_div_assoc,
      div_self hne, mul_one]
  have hut_nn : 0 ≤ u * t := mul_nonneg hu_nn ht_nn
  have hs_hi : u * t ≤ 0.49 := by
    by_contra hgt
    push_neg at hgt
    have hbig : (0.2401 : ℝ) < (u * t) ^ 2 := by nlinarith
    rw [hut_sq] at hbig
    linarith
  rcases le_or_lt 0 q with hq0 | hq0
  · have h1 : q ≤ q / t := by
      rw [le_div_iff₀ ht_pos]
      nlinarith
    nlinarith [mul_nonneg hu_nn (by linarith : (0:ℝ) ≤ w)]
  · -- q negative: use the floor bound on q
    have hkey : 3.6 * (1 - t) ≤ u * t := by
      have h36 : 3.6 * (u * t) ≤ 1 + t := by nlinarith
      nlinarith [mul_nonneg hut_nn hut_nn]
    have hmain : 0 ≤ q * (1 - t) + (u * t) * w := by
      have h1 : (-q) * (1 - t) ≤ 3.6 * (1 - t) := by nlinarith
      have h2 : u * t ≤ (u * t) * w := by nlinarith
      nlinarith
    have heq : q / t + u * w - q =
        (q * (1 - t) + (u * t) * w) / t := by
      field_simp
      ring
    have hnn : 0 ≤ q / t + u * w - q := by
      rw [heq]
      exact div_nonneg hmain ht_pos.le
    linarith

/-- Vasicek capital K is nonnegative when PD is floored at 3 basis points,
LGD is nonnegative and the correlation sits in the supervisory band. -/
lemma asrf_K_nonneg {pd lgd R : ℝ} (hpd : 0.0003 ≤ pd) (hpd1 : pd ≤ 1)
    (hlgd : 0 ≤ lgd) (hR1 : 0.12 ≤ R) (hR2 : R ≤ 0.24) :
    0 ≤ asrf_K pd lgd R := by
  rw [asrf_K]
  split_ifs with hc
  · -- pd < 1: show the conditional default probability dominates pd
    have hq : stdNormalCDF (stdNormalQuantile pd) = pd :=
      stdNormalCDF_quantile (by linarith) hc
    have hq36 : (-3.6 : ℝ) ≤ stdNormalQuantile pd := quantile_ge_neg36 hpd hc
    have h999 : (1 : ℝ) ≤ stdNormalQuantile 0.999 := one_le_quantile_999
    have ht_sq : Real.sqrt (1.0 - R) ^ 2 = 1 - R := by
      rw [Real.sq_sqrt (by linarith)]
      norm_num
    have hu_sq : Real.sqrt (R / (1.0 - R)) ^ 2 = R / (1 - R) := by
      rw [Real.sq_sqrt (div_nonneg (by linarith) (by linarith))]
      norm_num
    have hterm := term_ge_quantile_aux hq36 h999 ht_sq (Real.sqrt_nonneg _)
      hu_sq (Real.sqrt_nonneg _) hR1 hR2
    have hcdf := stdNormalCDF_mono hterm
    rw [hq] at hcdf
    have hfin : 0 ≤ lgd * (stdNormalCDF (stdNormalQuantile pd / Real.sqrt (1.0 - R) +
        Real.sqrt (R / (1.0 - R)) * stdNormalQuantile 0.999) - pd) :=
      mul_nonneg hlgd (by linarith)
    have hexpand : lgd * (stdNormalCDF (stdNormalQuantile pd / Real.sqrt (1.0 - R) +
        Real.sqrt (R / (1.0 - R)) * stdNormalQuantile 0.999) - pd) =
        lgd * stdNormalCDF (stdNormalQuantile pd / Real.sqrt (1.0 - R) +
        Real.sqrt (R / (1.0 - R)) * stdNormalQuantile 0.999) - pd * lgd := by
      ring
    rw [hexpand] at hfin
    exact hfin
  · -- pd = 1 forced by the hypotheses; K is exactly zero
    have hone : pd = 1 := le_antisymm hpd1 (not_lt.mp hc)
    rw [hone]
    norm_num

/-! ## Nonnegativity of the standardized risk weight tables -/

lemma get_standardized_risk_weight_basel2_nonneg (et : Option ExposureType)
    (rb : Option RatingBucket) (irr ipm : Bool) :
    0 ≤ get_standardized_risk_weight_basel2 et rb irr ipm := by
  rw [get_standardized_risk_weight_basel2]
  split_ifs <;> norm_num

lemma basel3_cre_decision_fst_nonneg (ltv : Option ℝ) (inc : Bool)
    (cp : ExposureType) (cp_rw : ℝ) (h : 0 ≤ cp_rw) :
    0 ≤ (basel3_cre_decision ltv inc cp cp_rw).1 := by
  rcases ltv with _ | l <;> cases inc <;>
    simp only [basel3_cre_decision] <;> (try split_ifs)
  all_goals try norm_num
  all_goals try exact h
  all_goals try exact le_min (by norm_num) h
  all_goals exact le_trans h (le_max_left _ _)

lemma basel3_rw_fst_nonneg (fuel : ℕ) (et : Option ExposureType)
    (rb : Option RatingBucket) (ead pv : Option ℝ) (inc : Bool)
    (cp : Option ExposureType) : 0 ≤ (basel3_rw fuel et rb ead pv inc cp).1 := by
  induction fuel generalizing et rb ead pv inc cp with
  | zero => rw [basel3_rw]; norm_num
  | succ n ih =>
    rw [basel3_rw]
    by_cases h1 : et = some ExposureType.CORPORATE
    · rw [if_pos h1]
      split_ifs <;> norm_num
    rw [if_neg h1]
    by_cases h2 : et = some ExposureType.BANK
    · rw [if_pos h2]
      split_ifs <;> norm_num
    rw [if_neg h2]
    by_cases h3 : et = some ExposureType.COMMERCIAL_REAL_ESTATE
    · rw [if_pos h3]
      refine basel3_cre_decision_fst_nonneg _ _ _ _ ?_
      split_ifs
      · exact ih _ _ _ _ _ _
      · exact le_trans (ih _ _ _ _ _ _) (le_max_left _ _)
    · rw [if_neg h3]
      norm_num

/-! ## Shape lemmas for the orchestrator -/

/-- On the IRB path with a covered asset class under a Basel III approach,
the orchestrator returns the ASRF record with the output floor applied. -/
lemma calculate_loan_capital_irb_basel3 {approach : Approach} {ead : ℝ}
    {mm : ℤ} {pd lgd : Option ℝ} {et : Option ExposureType}
    {rb : Option RatingBucket} {irr ipm : Bool} {cr : ℝ} {jur : String}
    {flag : Bool} {col : Option CollateralKind} {pv : Option ℝ} {inc : Bool}
    {cpt : Option ExposureType} {ack : AssetClass}
    (hm : approach.method = Method.irb)
    (hack : asset_class_of et = some ack)
    (hreg : approach.regime = Regime.basel3) :
    calculate_loan_capital approach ead mm pd lgd et rb irr ipm cr jur flag
      col pv inc cpt =
    (let jn := normalize_jurisdiction jur
     let fr := resolve_floor_regime jn flag
     let p := irb_params approach ack fr col
     let sp := get_standardized_risk_weight_basel3 et rb (some ead) pv inc
       (some (cpt.getD ExposureType.CORPORATE))
     CalcResult.irb (apply_basel3_output_floor
       (calculate_irb_asrf ack ead pd lgd mm cr approach p.pd_floors
         p.lgd_defaults p.scaling_factor p.irb_mode p.lgd_mode
         p.lgd_floor_policy jn fr col) ead cr sp.1 sp.2)) := by
  rw [calculate_loan_capital.eq_def]
  simp only [hm, hack, hreg, if_pos]

/-- On the IRB path with a covered asset class under Basel II IRB, the
orchestrator returns the bare ASRF record. -/
lemma calculate_loan_capital_irb_basel2 {approach : Approach} {ead : ℝ}
    {mm : ℤ} {pd lgd : Option ℝ} {et : Option ExposureType}
    {rb : Option RatingBucket} {irr ipm : Bool} {cr : ℝ} {jur : String}
    {flag : Bool} {col : Option CollateralKind} {pv : Option ℝ} {inc : Bool}
    {cpt : Option ExposureType} {ack : AssetClass}
    (hm : approach.method = Method.irb)
    (hack : asset_class_of et = some ack)
    (hreg : approach.regime = Regime.basel2) :
    calculate_loan_capital approach ead mm pd lgd et rb irr ipm cr jur flag
      col pv inc cpt =
    (let jn := normalize_jurisdiction jur
     let fr := resolve_floor_regime jn flag
     let p := irb_params approach ack fr col
     CalcResult.irb
       (calculate_irb_asrf ack ead pd lgd mm cr approach p.pd_floors
         p.lgd_defaults p.scaling_factor p.irb_mode p.lgd_mode
         p.lgd_floor_policy jn fr col)) := by
  rw [calculate_loan_capital.eq_def]
  simp only [hm, hack, hreg]
  rw [if_neg (fun hcon => Regime.noConfusion hcon)]

/-- With an exposure type outside Corporate / Bank / Sovereign, the IRB path
returns the stub. -/
lemma calculate_loan_capital_irb_stub {approach : Approach} {ead : ℝ}
    {mm : ℤ} {pd lgd : Option ℝ} {et : Option ExposureType}
    {rb : Option RatingBucket} {irr ipm : Bool} {cr : ℝ} {jur : String}
    {flag : Bool} {col : Option CollateralKind} {pv : Option ℝ} {inc : Bool}
    {cpt : Option ExposureType}
    (hm : approach.method = Method.irb)
    (hack : asset_class_of et = none) :
    calculate_loan_capital approach ead mm pd lgd et rb irr ipm cr jur flag
      col pv inc cpt =
    CalcResult.stub
      { approach_enum := approach,
        notes := "IRB stub - asset class not yet implemented." } := by
  rw [calculate_loan_capital.eq_def]
  simp only [hm, hack]

/-! ## Claim C9: rate normalization -/

/-- C9.  Rate normalization with a supplied default maps any missing input or
input at or below 0 to the default and divides any value above 1 by 100,
keeping values in (0, 1] unchanged; with a default in (0, 1] (every call site
passes 0.01, 0.40 or 0.45) it is idempotent on [0, 1], and normalize 45 =
normalize 0.45 = 0.45. -/
theorem C9_normalize_rate_spec :
    (∀ d : ℝ, normalize_rate none d = d) ∧
    (∀ d v : ℝ, v ≤ 0 → normalize_rate (some v) d = d) ∧
    (∀ d v : ℝ, 1 < v → normalize_rate (some v) d = v / 100) ∧
    (∀ d v : ℝ, 0 < v → v ≤ 1 → normalize_rate (some v) d = v) ∧
    (∀ d v : ℝ, 0 < d → d ≤ 1 → 0 ≤ v → v ≤ 1 →
      normalize_rate (some (normalize_rate (some v) d)) d =
        normalize_rate (some v) d) ∧
    normalize_rate (some 45) 0.01 = 0.45 ∧
    normalize_rate (some 0.45) 0.01 = 0.45 := by
  refine ⟨?_, ?_, ?_, ?_, ?_, ?_, ?_⟩
  · intro d
    rfl
  · intro d v hv
    simp only [normalize_rate, if_pos hv]
  · intro d v hv
    simp only [normalize_rate]
    rw [if_neg (by linarith), if_pos hv]
  · intro d v hv0 hv1
    simp only [normalize_rate]
    rw [if_neg (by linarith), if_neg (by linarith)]
  · intro d v hd0 hd1 hv0 hv1
    simp only [normalize_rate]
    split_ifs <;> first | rfl | linarith
  · simp only [normalize_rate]
    norm_num
  · simp only [normalize_rate]
    norm_num

/-- C9 witness: the theorem instantiated at default 0.01 and input 0.3. -/
theorem C9_witness :
    normalize_rate (some (normalize_rate (some 0.3) 0.01)) 0.01 =
      normalize_rate (some 0.3) 0.01 :=
  C9_normalize_rate_spec.2.2.2.2.1 0.01 0.3 (by norm_num) (by norm_num)
    (by norm_num) (by norm_num)

/-! ## Claim C4: the standardized risk weight tables -/

/-- C4 counterexample.  The claim says Basel II maps Sovereign AAA/AA to 0
percent and that the Basel III Bank row is unchanged from Basel II (with BBB
at 100 percent): in the code Basel II has no Sovereign row at all (the
resolver returns 100 percent) and Basel III Bank BBB is 75 percent. -/
theorem C4_counterexample :
    get_standardized_risk_weight_basel2 (some ExposureType.SOVEREIGN_CENTRAL_BANK)
      (some RatingBucket.AAA_AA) false false = 1 ∧ (1 : ℝ) ≠ 0 ∧
    (get_standardized_risk_weight_basel3 (some ExposureType.BANK)
      (some RatingBucket.BBB) none none false none).1 = 0.75 ∧
    (0.75 : ℝ) ≠ 1 := by
  refine ⟨?_, by norm_num, ?_, by norm_num⟩
  · simp [get_standardized_risk_weight_basel2]
    norm_num
  · simp [get_standardized_risk_weight_basel3, basel3_rw]

/-- C4 amended.  What the resolvers actually compute for the non-Corporate
classes: Basel II has no Sovereign or Bank rows (both resolve to 100 percent
whatever the rating), Retail and Residential Mortgage use the flag formulas;
Basel III maps Bank to 20/50/75/100/150/100 percent by rating (so its BBB row
differs from the Basel II fall-through), and Retail, Residential Mortgage and
Sovereign resolve flat to 100 percent there, flags and rating ignored. -/
theorem C4_tables :
    (∀ (rb : Option RatingBucket) (irr ipm : Bool),
      get_standardized_risk_weight_basel2 (some ExposureType.SOVEREIGN_CENTRAL_BANK)
        rb irr ipm = 1) ∧
    (∀ (rb : Option RatingBucket) (irr ipm : Bool),
      get_standardized_risk_weight_basel2 (some ExposureType.BANK) rb irr ipm = 1) ∧
    (∀ (rb : Option RatingBucket) (irr ipm : Bool),
      get_standardized_risk_weight_basel2 (some ExposureType.RETAIL) rb irr ipm =
        if irr then 0.75 else 1) ∧
    (∀ (rb : Option RatingBucket) (irr ipm : Bool),
      get_standardized_risk_weight_basel2 (some ExposureType.RESIDENTIAL_MORTGAGE)
        rb irr ipm = if ipm then 0.35 else 1) ∧
    (∀ (ead pv : Option ℝ) (inc : Bool) (cpt : Option ExposureType),
      (get_standardized_risk_weight_basel3 (some ExposureType.BANK)
        (some RatingBucket.AAA_AA) ead pv inc cpt).1 = 0.20 ∧
      (get_standardized_risk_weight_basel3 (some ExposureType.BANK)
        (some RatingBucket.A) ead pv inc cpt).1 = 0.50 ∧
      (get_standardized_risk_weight_basel3 (some ExposureType.BANK)
        (some RatingBucket.BBB) ead pv inc cpt).1 = 0.75 ∧
      (get_standardized_risk_weight_basel3 (some ExposureType.BANK)
        (some RatingBucket.BB_B) ead pv inc cpt).1 = 1 ∧
      (get_standardized_risk_weight_basel3 (some ExposureType.BANK)
        (some RatingBucket.BELOW_B) ead pv inc cpt).1 = 1.50 ∧
      (get_standardized_risk_weight_basel3 (some ExposureType.BANK)
        (some RatingBucket.UNRATED) ead pv inc cpt).1 = 1) ∧
    (∀ (rb : Option RatingBucket) (ead pv : Option ℝ) (inc : Bool)
        (cpt : Option ExposureType),
      (get_standardized_risk_weight_basel3 (some ExposureType.RETAIL)
        rb ead pv inc cpt).1 = 1 ∧
      (get_standardized_risk_weight_basel3 (some ExposureType.RESIDENTIAL_MORTGAGE)
        rb ead pv inc cpt).1 = 1 ∧
      (get_standardized_risk_weight_basel3 (some ExposureType.SOVEREIGN_CENTRAL_BANK)
        rb ead pv inc cpt).1 = 1) := by
  refine ⟨?_, ?_, ?_, ?_, ?_, ?_⟩
  · intro rb irr ipm
    simp [get_standardized_risk_weight_basel2] <;> try norm_num
  · intro rb irr ipm
    simp [get_standardized_risk_weight_basel2] <;> try norm_num
  · intro rb irr ipm
    cases irr <;> simp [get_standardized_risk_weight_basel2] <;> try norm_num
  · intro rb irr ipm
    cases ipm <;> simp [get_standardized_risk_weight_basel2] <;> try norm_num
  · intro ead pv inc cpt
    refine ⟨?_, ?_, ?_, ?_, ?_, ?_⟩ <;>
      simp [get_standardized_risk_weight_basel3, basel3_rw] <;> try norm_num
  · intro rb ead pv inc cpt
    refine ⟨?_, ?_, ?_⟩ <;>
      simp [get_standardized_risk_weight_basel3, basel3_rw] <;> try norm_num

/-! ## Claim C10: which entries each result carries -/

/-- C10 counterexample.  The claim says every result record, including the
IRB stub, carries approach identifiers, EAD, RWA, capital_required and
capital_ratio: the stub returned for a Retail exposure under Basel II IRB
carries only the approach identifiers and a note. -/
theorem C10_counterexample :
    (calculate_loan_capital Approach.BASEL_II_IRB 100 36 (some 0.01)
      (some 0.45) (some ExposureType.RETAIL) none false false 0.08 "US"
      false none none false none).isStub = true ∧
    (calculate_loan_capital Approach.BASEL_II_IRB 100 36 (some 0.01)
      (some 0.45) (some ExposureType.RETAIL) none false false 0.08 "US"
      false none none false none).hasApproachId = true ∧
    (calculate_loan_capital Approach.BASEL_II_IRB 100 36 (some 0.01)
      (some 0.45) (some ExposureType.RETAIL) none false false 0.08 "US"
      false none none false none).rwaField = none ∧
    (calculate_loan_capital Approach.BASEL_II_IRB 100 36 (some 0.01)
      (some 0.45) (some ExposureType.RETAIL) none false false 0.08 "US"
      false none none false none).eadField = none ∧
    (calculate_loan_capital Approach.BASEL_II_IRB 100 36 (some 0.01)
      (some 0.45) (some ExposureType.RETAIL) none false false 0.08 "US"
      false none none false none).capitalRequiredField = none ∧
    (calculate_loan_capital Approach.BASEL_II_IRB 100 36 (some 0.01)
      (some 0.45) (some ExposureType.RETAIL) none false false 0.08 "US"
      false none none false none).capitalRatioField = none := by
  rw [calculate_loan_capital_irb_stub
    (show Approach.BASEL_II_IRB.method = Method.irb from rfl)
    (show asset_class_of (some ExposureType.RETAIL) = none from rfl)]
  refine ⟨rfl, rfl, rfl, rfl, rfl, rfl⟩

/-- C10 amended.  Standardized and IRB results always carry the approach
identifiers, EAD, RWA, capital required and capital ratio; the IRB stub
carries only the approach identifiers (no EAD / RWA / capital entries); the
unsupported-combination error record is unreachable, because every resolved
approach has a standardized or irb method. -/
theorem C10_result_fields (approach : Approach) (ead : ℝ) (mm : ℤ)
    (pd lgd : Option ℝ) (et : Option ExposureType) (rb : Option RatingBucket)
    (irr ipm : Bool) (cr : ℝ) (jur : String) (flag : Bool)
    (col : Option CollateralKind) (pv : Option ℝ) (inc : Bool)
    (cpt : Option ExposureType) :
    (calculate_loan_capital approach ead mm pd lgd et rb irr ipm cr jur flag
      col pv inc cpt).isError = false ∧
    (calculate_loan_capital approach ead mm pd lgd et rb irr ipm cr jur flag
      col pv inc cpt).hasApproachId = true ∧
    (calculate_loan_capital approach ead mm pd lgd et rb irr ipm cr jur flag
      col pv inc cpt).eadField.isSome =
      !(calculate_loan_capital approach ead mm pd lgd et rb irr ipm cr jur
        flag col pv inc cpt).isStub ∧
    (calculate_loan_capital approach ead mm pd lgd et rb irr ipm cr jur flag
      col pv inc cpt).rwaField.isSome =
      !(calculate_loan_capital approach ead mm pd lgd et rb irr ipm cr jur
        flag col pv inc cpt).isStub ∧
    (calculate_loan_capital approach ead mm pd lgd et rb irr ipm cr jur flag
      col pv inc cpt).capitalRequiredField.isSome =
      !(calculate_loan_capital approach ead mm pd lgd et rb irr ipm cr jur
        flag col pv inc cpt).isStub ∧
    (calculate_loan_capital approach ead mm pd lgd et rb irr ipm cr jur flag
      col pv inc cpt).capitalRatioField.isSome =
      !(calculate_loan_capital approach ead mm pd lgd et rb irr ipm cr jur
        flag col pv inc cpt).isStub := by
  rcases hmet : approach.method with _ | _
  · -- standardized path
    rw [calculate_loan_capital.eq_def]
    simp only [hmet]
    refine ⟨rfl, rfl, rfl, rfl, rfl, rfl⟩
  · -- irb path
    rcases hack : asset_class_of et with _ | ack
    · rw [calculate_loan_capital_irb_stub hmet hack]
      refine ⟨rfl, rfl, rfl, rfl, rfl, rfl⟩
    · rcases hreg : approach.regime with _ | _
      · rw [calculate_loan_capital_irb_basel2 hmet hack hreg]
        refine ⟨rfl, rfl, rfl, rfl, rfl, rfl⟩
      · rw [calculate_loan_capital_irb_basel3 hmet hack hreg]
        refine ⟨rfl, rfl, rfl, rfl, rfl, rfl⟩

/-! ## Claim C5: the Basel III IRB PD floor ignores the floor regime -/

/-- C5 exhibit.  With jurisdiction US and the BCBS baseline floors disabled
the floor regime resolves to NONE, yet a Basel III IRB Foundation Corporate
calculation with a 1 basis point PD input still floors the PD at 5 basis
points (pd_used = 0.0005, not the input 0.0001): the pd_floors table of the
Basel III IRB branch is selected without consulting the floor regime. -/
theorem C5_pd_floor_ignores_regime :
    (calculate_loan_capital Approach.BASEL_III_IRB_FOUNDATION 1000000 36
      (some 0.0001) (some 0.45) (some ExposureType.CORPORATE) none false
      false 0.08 "US" false none none false none).irbRes.map
        (fun r => (r.floor_regime, r.pd_used)) =
      some (FloorRegime.NONE, 0.0005) ∧ (0.0005 : ℝ) ≠ 0.0001 := by
  constructor
  · rw [calculate_loan_capital_irb_basel3
      (show Approach.BASEL_III_IRB_FOUNDATION.method = Method.irb from rfl)
      (show asset_class_of (some ExposureType.CORPORATE) =
        some AssetClass.corporate from rfl)
      (show Approach.BASEL_III_IRB_FOUNDATION.regime = Regime.basel3 from rfl)]
    simp only [CalcResult.irbRes, Option.map_some', Option.some.injEq, Prod.mk.injEq]
    constructor
    · decide
    · show (if (0.0005 : ℝ) ≤ 0.0 then normalize_rate (some 0.0001) 0.01
        else max (normalize_rate (some 0.0001) 0.01) 0.0005) = 0.0005
      rw [if_neg (by norm_num)]
      rw [show normalize_rate (some 0.0001) 0.01 = 0.0001 by
        norm_num [normalize_rate]]
      rw [max_eq_right (by norm_num)]
  · norm_num

/-! ## Claim C7: the Basel III CRE loan-to-value rule engine -/

/-- Fuel invariance of the counterparty resolution: with the arguments the
recursive call passes (no EAD, no property value), fuel 2 and fuel 3 agree. -/
lemma basel3_rw_fuel23 (cpt : ExposureType) (rb : Option RatingBucket) :
    basel3_rw 2 (some cpt) rb none none false none =
      basel3_rw 3 (some cpt) rb none none false none := by
  cases cpt <;> rfl

/-- C7.  The CRE resolver under Basel III Standardized: the counterparty risk
weight is resolved recursively and floored at 100 percent for counterparties
other than Corporate and Bank; LTV = EAD / property value, unknown when the
property value is missing or non-positive; income-producing exposures map
LTV to 70 / 90 / 110 percent (110 when unknown), general exposures map to
min(60 percent, counterparty RW) / counterparty RW / max(counterparty RW,
100 percent when unknown); the general branch is monotone non-decreasing in
LTV for a fixed counterparty. -/
theorem C7_cre_ltv_rules (rb : Option RatingBucket) (e p : ℝ) (inc : Bool)
    (cpt : ExposureType) :
    let cp_rw :=
      if cpt = ExposureType.CORPORATE ∨ cpt = ExposureType.BANK then
        (get_standardized_risk_weight_basel3 (some cpt) rb none none false none).1
      else
        max (get_standardized_risk_weight_basel3 (some cpt) rb none none false
          none).1 1.00
    let cre := fun (ead : ℝ) (pv : Option ℝ) (i : Bool) =>
      (get_standardized_risk_weight_basel3
        (some ExposureType.COMMERCIAL_REAL_ESTATE) rb (some ead) pv i
        (some cpt)).1
    ((cpt ≠ ExposureType.CORPORATE ∧ cpt ≠ ExposureType.BANK) → 1 ≤ cp_rw) ∧
    (cre e none inc = if inc then 1.10 else max cp_rw 1.00) ∧
    (p ≤ 0 → cre e (some p) inc = if inc then 1.10 else max cp_rw 1.00) ∧
    (0 < p → e / p ≤ 0.60 → cre e (some p) true = 0.70) ∧
    (0 < p → 0.60 < e / p → e / p ≤ 0.80 → cre e (some p) true = 0.90) ∧
    (0 < p → 0.80 < e / p → cre e (some p) true = 1.10) ∧
    (0 < p → e / p ≤ 0.60 → cre e (some p) false = min 0.60 cp_rw) ∧
    (0 < p → 0.60 < e / p → cre e (some p) false = cp_rw) ∧
    (∀ e1 e2 : ℝ, 0 < p → e1 ≤ e2 →
      cre e1 (some p) false ≤ cre e2 (some p) false) := by
  intro cp_rw cre
  have hfuel := basel3_rw_fuel23 cpt rb
  have hcre : ∀ (ead : ℝ) (pv : Option ℝ) (i : Bool),
      cre ead pv i = (basel3_cre_decision (cre_ltv (some ead) pv) i cpt
        (if cpt = ExposureType.CORPORATE ∨ cpt = ExposureType.BANK then
          (basel3_rw 2 (some cpt) rb none none false none).1
        else
          max (basel3_rw 2 (some cpt) rb none none false none).1 1.00)).1 :=
    fun _ _ _ => rfl
  have hcp : cp_rw =
      (if cpt = ExposureType.CORPORATE ∨ cpt = ExposureType.BANK then
        (basel3_rw 2 (some cpt) rb none none false none).1
      else
        max (basel3_rw 2 (some cpt) rb none none false none).1 1.00) := by
    rw [hfuel]
    rfl
  have hltv_none : ∀ ead : ℝ, cre_ltv (some ead) none = none := fun _ => rfl
  have hltv_some : ∀ ead : ℝ, cre_ltv (some ead) (some p) =
      if 0 < p then some (ead / p) else none := fun _ => rfl
  refine ⟨?_, ?_, ?_, ?_, ?_, ?_, ?_, ?_, ?_⟩
  · intro ⟨h1, h2⟩
    rw [hcp, if_neg (by tauto)]
    exact le_trans (by norm_num) (le_max_right _ _)
  · rw [hcre, hcp, hltv_none]
    cases inc <;> simp [basel3_cre_decision]
  · intro hp
    rw [hcre, hcp, hltv_some, if_neg (not_lt.mpr hp)]
    cases inc <;> simp [basel3_cre_decision]
  · intro hp hl
    rw [hcre, hltv_some, if_pos hp]
    simp only [basel3_cre_decision, if_true, eq_self_iff_true]
    rw [if_pos hl]
  · intro hp hl1 hl2
    rw [hcre, hltv_some, if_pos hp]
    simp only [basel3_cre_decision, if_true, eq_self_iff_true]
    rw [if_neg (not_le.mpr hl1), if_pos hl2]
  · intro hp hl
    rw [hcre, hltv_some, if_pos hp]
    simp only [basel3_cre_decision, if_true, eq_self_iff_true]
    rw [if_neg (not_le.mpr (lt_trans (by norm_num) hl)),
      if_neg (not_le.mpr hl)]
  · intro hp hl
    rw [hcre, hcp, hltv_some, if_pos hp]
    simp only [basel3_cre_decision, Bool.false_eq_true, if_false]
    rw [if_pos hl]
  · intro hp hl
    rw [hcre, hcp, hltv_some, if_pos hp]
    simp only [basel3_cre_decision, Bool.false_eq_true, if_false]
    rw [if_neg (not_le.mpr hl)]
  · intro e1 e2 hp h12
    rw [hcre, hcre, hltv_some, hltv_some, if_pos hp, if_pos hp]
    simp only [basel3_cre_decision, Bool.false_eq_true, if_false]
    have hdiv : e1 / p ≤ e2 / p := by
      apply div_le_div_of_nonneg_right h12 hp.le
    rcases le_or_lt (e1 / p) 0.60 with h1 | h1
    · rw [if_pos h1]
      rcases le_or_lt (e2 / p) 0.60 with h2 | h2
      · rw [if_pos h2]
      · rw [if_neg (not_le.mpr h2)]
        exact min_le_right _ _
    · rw [if_neg (not_le.mpr h1), if_neg (not_le.mpr (lt_of_lt_of_le h1 hdiv))]

/-- C7 witness: at property value 100, EAD 50 (LTV one half), an
income-producing CRE exposure with a Bank counterparty gets risk weight 70
percent. -/
theorem C7_witness :
    (get_standardized_risk_weight_basel3
      (some ExposureType.COMMERCIAL_REAL_ESTATE) (some RatingBucket.AAA_AA)
      (some 50) (some 100) true (some ExposureType.BANK)).1 = 0.70 := by
  have h := (C7_cre_ltv_rules (some RatingBucket.AAA_AA) 50 100 true
    ExposureType.BANK).2.2.2.1 (by norm_num) (by norm_num)
  exact h

/-! ## Claim C6: LGD determination under IRB -/

/-- C6.  Foundation IRB (Basel II or Basel III) and Bank exposures under
Basel III Advanced IRB always use supervisory LGD mode, the supervisory mode
takes the supervisory default and never applies or surfaces a floor;
non-Bank classes under Basel III Advanced use bank-estimated LGD with the
floor policy resolver; with an active floor regime the wholesale floors by
collateral type are financial 0, receivables 10, real estate 10, other
physical 15, intangibles 25 percent, with unrecognized or missing collateral
falling back to the 25 percent unsecured floor; Sovereign never gets an LGD
floor; bank-estimated LGD is raised to the floor (lgd_used = max of the
normalized input and the floor) and the floor and its application are
surfaced in the decision record, which feeds the result fields verbatim. -/
theorem C6_lgd_policy :
    (∀ (ack : AssetClass) (fr : FloorRegime) (col : Option CollateralKind),
      (irb_params Approach.BASEL_II_IRB ack fr col).lgd_mode =
        LgdMode.supervisory ∧
      (irb_params Approach.BASEL_III_IRB_FOUNDATION ack fr col).lgd_mode =
        LgdMode.supervisory ∧
      (irb_params Approach.BASEL_III_IRB_ADVANCED AssetClass.bank fr
        col).lgd_mode = LgdMode.supervisory) ∧
    (∀ (lgd : Option ℝ) (d : ℝ) (pol : FloorPolicy),
      (lgd_decision LgdMode.supervisory lgd d pol).lgd_used = d ∧
      (lgd_decision LgdMode.supervisory lgd d pol).lgd_floor_applied = false ∧
      (lgd_decision LgdMode.supervisory lgd d pol).lgd_floor_value = none) ∧
    (∀ (ack : AssetClass) (fr : FloorRegime) (col : Option CollateralKind),
      ack ≠ AssetClass.bank →
      (irb_params Approach.BASEL_III_IRB_ADVANCED ack fr col).lgd_mode =
        LgdMode.bank_estimated ∧
      (irb_params Approach.BASEL_III_IRB_ADVANCED ack fr col).lgd_floor_policy =
        get_basel3_lgd_floor_policy fr ack col) ∧
    (∀ fr : FloorRegime, fr ≠ FloorRegime.NONE →
      (get_basel3_lgd_floor_policy fr AssetClass.corporate
        (some CollateralKind.financial)).floor_value = some 0 ∧
      (get_basel3_lgd_floor_policy fr AssetClass.corporate
        (some CollateralKind.receivables)).floor_value = some 0.10 ∧
      (get_basel3_lgd_floor_policy fr AssetClass.corporate
        (some CollateralKind.real_estate)).floor_value = some 0.10 ∧
      (get_basel3_lgd_floor_policy fr AssetClass.corporate
        (some CollateralKind.other_physical)).floor_value = some 0.15 ∧
      (get_basel3_lgd_floor_policy fr AssetClass.corporate
        (some CollateralKind.intangibles)).floor_value = some 0.25 ∧
      (get_basel3_lgd_floor_policy fr AssetClass.corporate
        (some CollateralKind.unrecognized)).floor_value = some 0.25 ∧
      (get_basel3_lgd_floor_policy fr AssetClass.corporate none).floor_value =
        some 0.25 ∧
      (get_basel3_lgd_floor_policy fr AssetClass.corporate none).enabled =
        true) ∧
    (∀ (fr : FloorRegime) (col : Option CollateralKind),
      (get_basel3_lgd_floor_policy fr AssetClass.sovereign col).enabled =
        false) ∧
    (∀ (lgd : Option ℝ) (d fv : ℝ) (pol : FloorPolicy),
      pol.enabled = true → pol.floor_value = some fv →
      (lgd_decision LgdMode.bank_estimated lgd d pol).lgd_used =
        max (normalize_rate lgd d) fv ∧
      (lgd_decision LgdMode.bank_estimated lgd d pol).lgd_floor_value =
        some fv ∧
      ((lgd_decision LgdMode.bank_estimated lgd d pol).lgd_floor_applied =
        true ↔ normalize_rate lgd d < fv)) ∧
    (∀ (ack : AssetClass) (ead : ℝ) (pd lgd : Option ℝ) (mm : ℤ) (cr : ℝ)
        (app : Approach) (pf ld : AssetClass → ℝ) (sf : ℝ) (im : String)
        (lm : LgdMode) (pol : FloorPolicy) (jn : Jurisdiction)
        (fr : FloorRegime) (col : Option CollateralKind),
      (calculate_irb_asrf ack ead pd lgd mm cr app pf ld sf im lm pol jn fr
        col).lgd_used = (lgd_decision lm lgd (ld ack) pol).lgd_used ∧
      (calculate_irb_asrf ack ead pd lgd mm cr app pf ld sf im lm pol jn fr
        col).lgd_floor_applied =
        (lgd_decision lm lgd (ld ack) pol).lgd_floor_applied ∧
      (calculate_irb_asrf ack ead pd lgd mm cr app pf ld sf im lm pol jn fr
        col).lgd_floor_value =
        (lgd_decision lm lgd (ld ack) pol).lgd_floor_value ∧
      (calculate_irb_asrf ack ead pd lgd mm cr app pf ld sf im lm pol jn fr
        col).lgd_mode = lm) := by
  refine ⟨?_, ?_, ?_, ?_, ?_, ?_, ?_⟩
  · intro ack fr col
    refine ⟨rfl, rfl, rfl⟩
  · intro lgd d pol
    refine ⟨rfl, rfl, rfl⟩
  · intro ack fr col hack
    cases ack
    · exact ⟨rfl, rfl⟩
    · exact absurd rfl hack
    · exact ⟨rfl, rfl⟩
  · intro fr hfr
    have hne : ¬ (AssetClass.corporate = AssetClass.sovereign) := by decide
    refine ⟨?_, ?_, ?_, ?_, ?_, ?_, ?_, ?_⟩ <;>
      simp only [get_basel3_lgd_floor_policy, if_neg hne, if_neg hfr,
        lgd_floors_wholesale_secured, LGD_FLOOR_WHOLESALE_UNSECURED]
    all_goals norm_num
  · intro fr col
    rfl
  · intro lgd d fv pol hen hfv
    simp only [lgd_decision, hen, if_pos, hfv]
    constructor
    · split_ifs with h
      · rw [max_eq_right h.le]
      · rw [max_eq_left (not_lt.mp h)]
    constructor
    · split_ifs <;> rfl
    · constructor
      · intro happ
        by_contra hge
        rw [if_neg hge] at happ
        exact Bool.false_ne_true happ
      · intro hlt
        rw [if_pos hlt]
  · intro ack ead pd lgd mm cr app pf ld sf im lm pol jn fr col
    refine ⟨rfl, rfl, rfl, rfl⟩

/-! ## Claim C2: the Basel III output floor -/

/-- C2.  Every Basel III IRB calculation (Foundation or Advanced) with a
covered asset class attaches an output-floor record in which the
standardized RWA is recomputed as EAD times the Basel III standardized risk
weight of the same exposure, the floor is 72.5 percent of that standardized
RWA, the final RWA is the max of the pre-floor IRB RWA and the floor,
capital_required and the effective risk weight are recomputed from the
final RWA, the binding flag holds iff the final RWA exceeds the pre-floor
RWA by more than 1e-12, and consequently the final RWA is at least 72.5
percent of the standardized RWA. -/
theorem C2_output_floor (approach : Approach) (ead : ℝ) (mm : ℤ)
    (pd lgd : Option ℝ) (et : Option ExposureType) (rb : Option RatingBucket)
    (irr ipm : Bool) (cr : ℝ) (jur : String) (flag : Bool)
    (col : Option CollateralKind) (pv : Option ℝ) (inc : Bool)
    (cpt : Option ExposureType) (ack : AssetClass)
    (hm : approach.method = Method.irb)
    (hreg : approach.regime = Regime.basel3)
    (hack : asset_class_of et = some ack) :
    ∃ r : IrbResult, ∃ det : OutputFloorDetail,
      (calculate_loan_capital approach ead mm pd lgd et rb irr ipm cr jur
        flag col pv inc cpt).irbRes = some r ∧
      r.output_floor = some det ∧
      det.standardized_risk_weight = (get_standardized_risk_weight_basel3 et
        rb (some ead) pv inc (some (cpt.getD ExposureType.CORPORATE))).1 ∧
      det.standardized_rwa = ead * det.standardized_risk_weight ∧
      det.floor_pct_of_standardized_rwa = BASEL3_OUTPUT_FLOOR_PCT ∧
      det.floor_rwa = BASEL3_OUTPUT_FLOOR_PCT * det.standardized_rwa ∧
      det.rwa_irb_pre_floor =
        (let jn := normalize_jurisdiction jur
         let fr := resolve_floor_regime jn flag
         let p := irb_params approach ack fr col
         (calculate_irb_asrf ack ead pd lgd mm cr approach p.pd_floors
           p.lgd_defaults p.scaling_factor p.irb_mode p.lgd_mode
           p.lgd_floor_policy jn fr col).RWA) ∧
      det.rwa_final_post_floor = r.RWA ∧
      r.RWA = max det.rwa_irb_pre_floor det.floor_rwa ∧
      r.capital_required = r.RWA * cr ∧
      r.effective_risk_weight =
        (if 0 < ead then some (r.RWA / ead) else none) ∧
      (det.binding ↔ r.RWA > det.rwa_irb_pre_floor + 1e-12) ∧
      det.floor_rwa ≤ r.RWA := by
  rw [calculate_loan_capital_irb_basel3 hm hack hreg]
  exact ⟨_, _, rfl, rfl, rfl, rfl, rfl, rfl, rfl, rfl, rfl, rfl, rfl,
    Iff.rfl, le_max_right _ _⟩

/-- C2 witness: a concrete Basel III Foundation IRB corporate exposure
carries an output-floor record whose floor RWA is dominated by the final
RWA. -/
theorem C2_output_floor_witness :
    ∃ r : IrbResult, ∃ det : OutputFloorDetail,
      (calculate_loan_capital Approach.BASEL_III_IRB_FOUNDATION 100 36
        (some 0.01) (some 0.45) (some ExposureType.CORPORATE) none false
        false 0.08 "US" false none none false none).irbRes = some r ∧
      r.output_floor = some det ∧ det.floor_rwa ≤ r.RWA := by
  obtain ⟨r, det, h1, h2, _, _, _, _, _, _, _, _, _, _, h13⟩ :=
    C2_output_floor Approach.BASEL_III_IRB_FOUNDATION 100 36 (some 0.01)
      (some 0.45) (some ExposureType.CORPORATE) none false false 0.08 "US"
      false none none false none AssetClass.corporate rfl rfl rfl
  exact ⟨r, det, h1, h2, h13⟩

/-! ## Claim C1: the ASRF engine formulas -/

/-- The engine correlation equals the specified formula evaluated at the
clamped PD max(PD, 1e-12). -/
lemma supervisory_correlation_eq_spec (pd : ℝ) :
    supervisory_correlation pd = specCorrelationR (max pd 1e-12) := by
  rw [supervisory_correlation_eq, specCorrelationR]

/-- Unfolding of the K formula below PD 1. -/
lemma asrf_K_lt_one (pd lgd R : ℝ) (h : pd < 1) :
    asrf_K pd lgd R = lgd * stdNormalCDF (stdNormalQuantile pd /
        Real.sqrt (1.0 - R) + Real.sqrt (R / (1.0 - R)) *
        stdNormalQuantile 0.999) - pd * lgd := by
  rw [asrf_K, if_pos h]

/-- The specified correlation formula separates the clamp points 1e-12 and
1e-13: it is injective on exponents. -/
lemma specCorrelationR_clamp_ne :
    specCorrelationR 1e-12 ≠ specCorrelationR 1e-13 := by
  intro h
  have hD := one_sub_exp_neg50_pos
  have hne : (1 : ℝ) - Real.exp (-50) ≠ 0 := ne_of_gt hD
  simp only [specCorrelationR] at h
  field_simp at h
  have hE : Real.exp (-50 * 1e-12) = Real.exp (-50 * 1e-13) := by linarith
  have h2 := Real.exp_eq_exp.mp hE
  norm_num at h2

/-- C1 counterexample.  A Basel III Foundation IRB Sovereign exposure with
PD input 1e-13 (the Sovereign Basel III PD floor is zero, so pd_used is the
raw 1e-13): the engine reports correlation R equal to the specified formula
evaluated at the clamp 1e-12, which differs from the specified formula at
the actual pd_used, because the engine clamps PD at 1e-12 inside the
exponential while the specified formula has no clamp. -/
theorem C1_counterexample :
    ∃ r : IrbResult,
      (calculate_loan_capital Approach.BASEL_III_IRB_FOUNDATION 100 36
        (some 1e-13) (some 0.45)
        (some ExposureType.SOVEREIGN_CENTRAL_BANK) none false false 0.08
        "US" false none none false none).irbRes = some r ∧
      r.pd_used = 1e-13 ∧
      r.supervisory_correlation_R = specCorrelationR 1e-12 ∧
      r.supervisory_correlation_R ≠ specCorrelationR r.pd_used := by
  have hpdu : (if (0.0 : ℝ) ≤ 0.0 then normalize_rate (some 1e-13) 0.01
      else max (normalize_rate (some 1e-13) 0.01) 0.0) = 1e-13 := by
    rw [if_pos le_rfl]
    norm_num [normalize_rate]
  rw [calculate_loan_capital_irb_basel3
    (show Approach.BASEL_III_IRB_FOUNDATION.method = Method.irb from rfl)
    (show asset_class_of (some ExposureType.SOVEREIGN_CENTRAL_BANK) =
      some AssetClass.sovereign from rfl)
    (show Approach.BASEL_III_IRB_FOUNDATION.regime = Regime.basel3 from rfl)]
  refine ⟨_, rfl, ?_, ?_, ?_⟩
  · exact hpdu
  · show supervisory_correlation (if (0.0 : ℝ) ≤ 0.0 then
        normalize_rate (some 1e-13) 0.01
      else max (normalize_rate (some 1e-13) 0.01) 0.0) =
      specCorrelationR 1e-12
    rw [hpdu, supervisory_correlation_eq_spec,
      max_eq_right (by norm_num : (1e-13 : ℝ) ≤ 1e-12)]
  · show supervisory_correlation (if (0.0 : ℝ) ≤ 0.0 then
        normalize_rate (some 1e-13) 0.01
      else max (normalize_rate (some 1e-13) 0.01) 0.0) ≠
      specCorrelationR (if (0.0 : ℝ) ≤ 0.0 then
        normalize_rate (some 1e-13) 0.01
      else max (normalize_rate (some 1e-13) 0.01) 0.0)
    rw [hpdu, supervisory_correlation_eq_spec,
      max_eq_right (by norm_num : (1e-13 : ℝ) ≤ 1e-12)]
    exact specCorrelationR_clamp_ne

/-- C1.  The ASRF engine computes: normalized PD raised to the table floor
(when the floor is positive); correlation equal to the specified R formula
evaluated at max(PD, 1e-12); maturity years clamped to [1, 5] with default
2.5; maturity coefficient b at max(PD, 1e-9) inside the log; the Vasicek K
formula below PD 1; K_adj = K (1 + (M - 2.5) b) / (1 - 1.5 b); RWA = 12.5
x scaling factor x K_adj x EAD and capital_required = RWA x capital ratio;
and the orchestrator fixes the scaling factor at 1.06 exactly for Basel II
IRB and 1.0 for the Basel III IRB variants. -/
theorem C1_asrf_formulas :
    (∀ (ack : AssetClass) (ead : ℝ) (pd lgd : Option ℝ) (mm : ℤ) (cr : ℝ)
        (app : Approach) (pf ld : AssetClass → ℝ) (sf : ℝ) (im : String)
        (lm : LgdMode) (pol : FloorPolicy) (jn : Jurisdiction)
        (fr : FloorRegime) (col : Option CollateralKind),
      let r := calculate_irb_asrf ack ead pd lgd mm cr app pf ld sf im lm
        pol jn fr col
      r.pd_input = normalize_rate pd 0.01 ∧
      r.pd_used =
        (if pf ack ≤ 0.0 then r.pd_input else max r.pd_input (pf ack)) ∧
      r.supervisory_correlation_R = specCorrelationR (max r.pd_used 1e-12) ∧
      r.maturity_years =
        (if 0 < mm then min 5.0 (max 1.0 ((mm : ℝ) / 12.0)) else 2.5) ∧
      r.maturity_adjustment_factor =
        (1.0 + (r.maturity_years - 2.5) * maturity_b r.pd_used) /
          (1.0 - 1.5 * maturity_b r.pd_used) ∧
      maturity_b r.pd_used =
        (0.11852 - 0.05478 * Real.log (max r.pd_used 1e-9)) ^ 2 ∧
      (r.pd_used < 1 → r.K_unadjusted =
        r.lgd_used * stdNormalCDF (stdNormalQuantile r.pd_used /
            Real.sqrt (1.0 - r.supervisory_correlation_R) +
          Real.sqrt (r.supervisory_correlation_R /
            (1.0 - r.supervisory_correlation_R)) * stdNormalQuantile 0.999) -
        r.pd_used * r.lgd_used) ∧
      r.K_adjusted = r.K_unadjusted * r.maturity_adjustment_factor ∧
      r.irb_scaling_factor = sf ∧
      r.RWA = 12.5 * sf * r.K_adjusted * ead ∧
      r.capital_required = r.RWA * cr) ∧
    (∀ (app : Approach) (ack : AssetClass) (fr : FloorRegime)
        (col : Option CollateralKind), app.method = Method.irb →
      (irb_params app ack fr col).scaling_factor =
        (if app = Approach.BASEL_II_IRB then SCALING_FACTOR_BASEL2_IRB
         else 1.0)) := by
  constructor
  · intro ack ead pd lgd mm cr app pf ld sf im lm pol jn fr col r
    refine ⟨rfl, rfl, supervisory_correlation_eq_spec _, rfl, rfl, rfl,
      ?_, rfl, rfl, rfl, rfl⟩
    intro h
    exact asrf_K_lt_one _ _ _ h
  · intro app ack fr col hm
    cases app
    · exact absurd hm (by decide)
    · rw [if_pos rfl]
      rfl
    · exact absurd hm (by decide)
    · rw [if_neg (by decide)]
      rfl
    · rw [if_neg (by decide)]
      cases ack <;> rfl

/-! ## Claim C8: denominator guards -/

/-- Numeric bound: e^0.2 is at most 1.25. -/
lemma exp_point2_le : Real.exp (0.2 : ℝ) ≤ 1.25 := by
  have ha : (0.8 : ℝ) ≤ Real.exp (-0.2 : ℝ) := by
    have := Real.add_one_le_exp (-0.2 : ℝ)
    linarith
  have hb : Real.exp (0.2 : ℝ) * Real.exp (-0.2 : ℝ) = 1 := by
    rw [← Real.exp_add]
    norm_num
  nlinarith [Real.exp_pos (0.2 : ℝ)]

/-- Numeric bound: e^13.2 is below one million, hence log 1e-6 is below
-13.2. -/
lemma log_1em6_lt : Real.log (1e-6 : ℝ) < -13.2 := by
  have h22 : Real.exp (2.2 : ℝ) ≤ 9.25 := by
    have h1 : Real.exp (2.2 : ℝ) = Real.exp 2 * Real.exp 0.2 := by
      rw [← Real.exp_add]
      norm_num
    rw [h1]
    nlinarith [Real.exp_pos (0.2 : ℝ), Real.exp_pos (2 : ℝ), exp_two_le,
      exp_point2_le]
  have h132 : Real.exp (13.2 : ℝ) < 1e6 := by
    have h1 : Real.exp (13.2 : ℝ) = Real.exp 2.2 ^ (6 : ℕ) := by
      rw [show (13.2 : ℝ) = ((6 : ℕ) : ℝ) * 2.2 by norm_num,
        Real.exp_nat_mul]
    rw [h1]
    calc Real.exp 2.2 ^ (6 : ℕ) ≤ (9.25 : ℝ) ^ (6 : ℕ) := by
          apply pow_le_pow_left₀ (Real.exp_pos _).le h22
      _ < 1e6 := by norm_num
  rw [show (1e-6 : ℝ) = (1e6 : ℝ)⁻¹ by norm_num, Real.log_inv]
  have h6 : (13.2 : ℝ) < Real.log 1e6 := by
    rw [Real.lt_log_iff_exp_lt (by norm_num)]
    exact h132
  linarith

/-- The maturity coefficient b at PD 1e-6 exceeds two thirds, putting the
maturity-adjustment denominator 1 - 1.5 b below zero. -/
lemma maturity_b_1em6_gt : (2 : ℝ) / 3 < maturity_b 1e-6 := by
  rw [maturity_b, max_eq_left (by norm_num)]
  have ht : (0.8416 : ℝ) < 0.11852 - 0.05478 * Real.log (1e-6 : ℝ) := by
    nlinarith [log_1em6_lt]
  nlinarith [ht,
    sq_nonneg (0.11852 - 0.05478 * Real.log (1e-6 : ℝ) - 0.8416)]

/-- C8 counterexample.  A Basel III Foundation IRB Sovereign exposure with
PD 1e-6 (inside (0, 1]) and 36-month maturity: the maturity-adjustment
denominator 1 - 1.5 b is negative, far below the 1e-9 floor the claim
asserts, and the maturity adjustment factor the engine reports is negative
- the source applies no guard to this denominator. -/
theorem C8_counterexample :
    ∃ r : IrbResult,
      (calculate_loan_capital Approach.BASEL_III_IRB_FOUNDATION 100 36
        (some 1e-6) (some 0.45)
        (some ExposureType.SOVEREIGN_CENTRAL_BANK) none false false 0.08
        "US" false none none false none).irbRes = some r ∧
      r.maturity_adjustment_factor < 0 ∧
      1 - 1.5 * maturity_b r.pd_used < 1e-9 := by
  have hpdu : (if (0.0 : ℝ) ≤ 0.0 then normalize_rate (some 1e-6) 0.01
      else max (normalize_rate (some 1e-6) 0.01) 0.0) = 1e-6 := by
    rw [if_pos le_rfl]
    norm_num [normalize_rate]
  have hM : maturity_years (36 : ℤ) = 3 := by
    rw [maturity_years, if_pos (by norm_num),
      show (((36 : ℤ) : ℝ)) / 12.0 = 3 by norm_num,
      max_eq_right (by norm_num : (1.0 : ℝ) ≤ 3),
      min_eq_right (by norm_num : (3 : ℝ) ≤ 5.0)]
  rw [calculate_loan_capital_irb_basel3
    (show Approach.BASEL_III_IRB_FOUNDATION.method = Method.irb from rfl)
    (show asset_class_of (some ExposureType.SOVEREIGN_CENTRAL_BANK) =
      some AssetClass.sovereign from rfl)
    (show Approach.BASEL_III_IRB_FOUNDATION.regime = Regime.basel3 from rfl)]
  refine ⟨_, rfl, ?_, ?_⟩
  · show maturity_adjustment (maturity_years (36 : ℤ))
      (maturity_b (if (0.0 : ℝ) ≤ 0.0 then normalize_rate (some 1e-6) 0.01
        else max (normalize_rate (some 1e-6) 0.01) 0.0)) < 0
    rw [hpdu, hM, maturity_adjustment]
    apply div_neg_of_pos_of_neg
    · nlinarith [maturity_b_1em6_gt]
    · linarith [maturity_b_1em6_gt]
  · show (1 : ℝ) - 1.5 * maturity_b (if (0.0 : ℝ) ≤ 0.0 then
        normalize_rate (some 1e-6) 0.01
      else max (normalize_rate (some 1e-6) 0.01) 0.0) < 1e-9
    rw [hpdu]
    linarith [maturity_b_1em6_gt]

/-- C8.  The guards the source does apply: the effective risk weight is
reported only when EAD is positive (None otherwise), LTV is None when the
property value is missing or non-positive, and the correlation denominator
is guarded (the engine correlation always equals the specified formula at
the clamped PD, the zero-denominator fallback being unreachable).  The
maturity-adjustment denominator, by contrast, is used exactly as computed:
the factor is (1 + (M - 2.5) b) / (1 - 1.5 b) with no floor applied to
1 - 1.5 b. -/
theorem C8_guards :
    (∀ (ack : AssetClass) (ead : ℝ) (pd lgd : Option ℝ) (mm : ℤ) (cr : ℝ)
        (app : Approach) (pf ld : AssetClass → ℝ) (sf : ℝ) (im : String)
        (lm : LgdMode) (pol : FloorPolicy) (jn : Jurisdiction)
        (fr : FloorRegime) (col : Option CollateralKind),
      let r := calculate_irb_asrf ack ead pd lgd mm cr app pf ld sf im lm
        pol jn fr col
      (¬ 0 < ead → r.effective_risk_weight = none) ∧
      (0 < ead → r.effective_risk_weight = some (r.RWA / ead))) ∧
    (∀ (e : Option ℝ) (p : ℝ), p ≤ 0 → cre_ltv e (some p) = none) ∧
    (∀ e : Option ℝ, cre_ltv e none = none) ∧
    (∀ pd : ℝ, supervisory_correlation pd = specCorrelationR (max pd 1e-12)) ∧
    (∀ M b : ℝ, maturity_adjustment M b =
      (1.0 + (M - 2.5) * b) / (1.0 - 1.5 * b)) := by
  refine ⟨?_, ?_, ?_, supervisory_correlation_eq_spec, fun _ _ => rfl⟩
  · intro ack ead pd lgd mm cr app pf ld sf im lm pol jn fr col r
    exact ⟨fun h => if_neg h, fun h => if_pos h⟩
  · intro e p hp
    cases e
    · rfl
    · show (if 0 < p then _ else none) = none
      rw [if_neg (not_lt.mpr hp)]
  · intro e
    cases e <;> rfl

/-! ## Claim C3: RWA nonnegativity and the capital identity -/

/-- On the standardized path under a Basel III approach the orchestrator
returns the standardized record with the Basel III risk-weight table. -/
lemma calculate_loan_capital_std_basel3 {approach : Approach} {ead : ℝ}
    {mm : ℤ} {pd lgd : Option ℝ} {et : Option ExposureType}
    {rb : Option RatingBucket} {irr ipm : Bool} {cr : ℝ} {jur : String}
    {flag : Bool} {col : Option CollateralKind} {pv : Option ℝ} {inc : Bool}
    {cpt : Option ExposureType}
    (hm : approach.method = Method.standardized)
    (hreg : approach.regime = Regime.basel3) :
    calculate_loan_capital approach ead mm pd lgd et rb irr ipm cr jur flag
      col pv inc cpt =
    (let jn := normalize_jurisdiction jur
     let sp := get_standardized_risk_weight_basel3 et rb (some ead) pv inc
       (some (cpt.getD ExposureType.CORPORATE))
     let rwa := ead * sp.1
     CalcResult.std
       { approach_enum := approach, version := "Basel III",
         jurisdiction := jn,
         floor_regime := resolve_floor_regime jn flag,
         exposure_type_enum := et, rating_bucket_enum := rb,
         collateral_type := col, risk_weight := sp.1, EAD := ead,
         property_value := pv,
         LTV := (match pv with
           | some x => if 0 < x then some (ead / x) else none
           | none => none),
         property_income_dependent := inc, RWA := rwa,
         capital_ratio := cr, capital_required := rwa * cr,
         cre_details := sp.2 }) := by
  rw [calculate_loan_capital.eq_def]
  simp only [hm, hreg, if_pos]

/-- On the standardized path under a Basel II approach the orchestrator
returns the standardized record with the Basel II risk-weight table and no
CRE details. -/
lemma calculate_loan_capital_std_basel2 {approach : Approach} {ead : ℝ}
    {mm : ℤ} {pd lgd : Option ℝ} {et : Option ExposureType}
    {rb : Option RatingBucket} {irr ipm : Bool} {cr : ℝ} {jur : String}
    {flag : Bool} {col : Option CollateralKind} {pv : Option ℝ} {inc : Bool}
    {cpt : Option ExposureType}
    (hm : approach.method = Method.standardized)
    (hreg : approach.regime = Regime.basel2) :
    calculate_loan_capital approach ead mm pd lgd et rb irr ipm cr jur flag
      col pv inc cpt =
    (let jn := normalize_jurisdiction jur
     let rw := get_standardized_risk_weight_basel2 et rb irr ipm
     let rwa := ead * rw
     CalcResult.std
       { approach_enum := approach, version := "Basel II",
         jurisdiction := jn,
         floor_regime := resolve_floor_regime jn flag,
         exposure_type_enum := et, rating_bucket_enum := rb,
         collateral_type := col, risk_weight := rw, EAD := ead,
         property_value := pv,
         LTV := (match pv with
           | some x => if 0 < x then some (ead / x) else none
           | none => none),
         property_income_dependent := inc, RWA := rwa,
         capital_ratio := cr, capital_required := rwa * cr,
         cre_details := none }) := by
  rw [calculate_loan_capital.eq_def]
  simp only [hm, hreg]
  rw [if_neg (fun hcon => Regime.noConfusion hcon)]

/-- The rate normalization is the identity on (0, 1]. -/
lemma normalize_rate_of_unit {x : ℝ} (d : ℝ) (h0 : 0 < x) (h1 : x ≤ 1) :
    normalize_rate (some x) d = x := by
  show (if x ≤ 0 then d else if 1 < x then x / 100 else x) = x
  rw [if_neg (not_le.mpr h0), if_neg (not_lt.mpr h1)]

/-- ASRF engine RWA is nonnegative whenever EAD, the scaling factor and the
selected LGD are nonnegative, the PD floor of the asset class lies in
[0.0003, 1] and the normalized PD input is at most 1. -/
lemma calculate_irb_asrf_RWA_nonneg (ack : AssetClass) (ead : ℝ)
    (pd lgd : Option ℝ) (mm : ℤ) (cr : ℝ) (app : Approach)
    (pf ld : AssetClass → ℝ) (sf : ℝ) (im : String) (lm : LgdMode)
    (pol : FloorPolicy) (jn : Jurisdiction) (fr : FloorRegime)
    (col : Option CollateralKind) (head : 0 ≤ ead) (hsf : 0 ≤ sf)
    (hfl : 0.0003 ≤ pf ack) (hfu : pf ack ≤ 1)
    (hlgdu : 0 ≤ (lgd_decision lm lgd (ld ack) pol).lgd_used)
    (hnr : normalize_rate pd 0.01 ≤ 1) :
    0 ≤ (calculate_irb_asrf ack ead pd lgd mm cr app pf ld sf im lm pol jn
      fr col).RWA := by
  have hpdu_eq : (if pf ack ≤ 0.0 then normalize_rate pd 0.01
      else max (normalize_rate pd 0.01) (pf ack)) =
      max (normalize_rate pd 0.01) (pf ack) :=
    if_neg (not_le.mpr (lt_of_lt_of_le (by norm_num) hfl))
  show 0 ≤ 12.5 * sf *
    (asrf_K (if pf ack ≤ 0.0 then normalize_rate pd 0.01
        else max (normalize_rate pd 0.01) (pf ack))
      (lgd_decision lm lgd (ld ack) pol).lgd_used
      (supervisory_correlation (if pf ack ≤ 0.0 then normalize_rate pd 0.01
        else max (normalize_rate pd 0.01) (pf ack))) *
     maturity_adjustment (maturity_years mm)
      (maturity_b (if pf ack ≤ 0.0 then normalize_rate pd 0.01
        else max (normalize_rate pd 0.01) (pf ack)))) * ead
  rw [hpdu_eq]
  have h03 : 0.0003 ≤ max (normalize_rate pd 0.01) (pf ack) :=
    le_trans hfl (le_max_right _ _)
  have h1 : max (normalize_rate pd 0.01) (pf ack) ≤ 1 := max_le hnr hfu
  obtain ⟨hR1, hR2⟩ := supervisory_correlation_bounds
    (lt_of_lt_of_le (by norm_num) h03) h1
  obtain ⟨hb0, hb1⟩ := maturity_b_bounds h03 h1
  obtain ⟨hM1, hM5⟩ := maturity_years_bounds mm
  have hK := asrf_K_nonneg h03 h1 hlgdu hR1 hR2
  have hfac := maturity_adjustment_nonneg hM1 hM5 hb0 hb1
  exact mul_nonneg (mul_nonneg (mul_nonneg (by norm_num) hsf)
    (mul_nonneg hK hfac)) head

/-- C3.  For PD and LGD inputs in (0, 1] and nonnegative EAD, every result
record returned by calculate_loan_capital that carries an RWA entry has a
nonnegative RWA, and the capital_required entry of the final record is
exactly RWA times the capital ratio, on every path: Basel II and Basel III
Standardized, Basel II IRB, and Basel III IRB with the output floor
applied. -/
theorem C3_rwa_capital (approach : Approach) (ead : ℝ) (mm : ℤ)
    (pdv lgdv : ℝ) (et : Option ExposureType) (rb : Option RatingBucket)
    (irr ipm : Bool) (cr : ℝ) (jur : String) (flag : Bool)
    (col : Option CollateralKind) (pv : Option ℝ) (inc : Bool)
    (cpt : Option ExposureType)
    (hpd0 : 0 < pdv) (hpd1 : pdv ≤ 1) (hlgd0 : 0 < lgdv) (hlgd1 : lgdv ≤ 1)
    (head : 0 ≤ ead) :
    (∀ x ∈ (calculate_loan_capital approach ead mm (some pdv) (some lgdv)
      et rb irr ipm cr jur flag col pv inc cpt).rwaField, 0 ≤ x) ∧
    (calculate_loan_capital approach ead mm (some pdv) (some lgdv) et rb irr
      ipm cr jur flag col pv inc cpt).capitalRequiredField =
      Option.map (fun x => x * cr)
        (calculate_loan_capital approach ead mm (some pdv) (some lgdv) et rb
          irr ipm cr jur flag col pv inc cpt).rwaField := by
  rcases hmet : approach.method with _ | _
  · rcases hreg : approach.regime with _ | _
    · rw [calculate_loan_capital_std_basel2 hmet hreg]
      constructor
      · intro x hx
        simp only [CalcResult.rwaField, Option.mem_def,
          Option.some.injEq] at hx
        subst hx
        exact mul_nonneg head
          (get_standardized_risk_weight_basel2_nonneg _ _ _ _)
      · rfl
    · rw [calculate_loan_capital_std_basel3 hmet hreg]
      constructor
      · intro x hx
        simp only [CalcResult.rwaField, Option.mem_def,
          Option.some.injEq] at hx
        subst hx
        exact mul_nonneg head (basel3_rw_fst_nonneg 3 _ _ _ _ _ _)
      · rfl
  · rcases hack : asset_class_of et with _ | ack
    · rw [calculate_loan_capital_irb_stub hmet hack]
      refine ⟨fun x hx => ?_, rfl⟩
      simp [CalcResult.rwaField, Option.mem_def] at hx
    · rcases hreg : approach.regime with _ | _
      · rw [calculate_loan_capital_irb_basel2 hmet hack hreg]
        have hp : irb_params approach ack (resolve_floor_regime
            (normalize_jurisdiction jur) flag) col =
            { scaling_factor := SCALING_FACTOR_BASEL2_IRB,
              pd_floors := pd_floors_basel2,
              lgd_defaults := lgd_defaults_basel2_firb,
              irb_mode := "Basel II IRB - Foundation",
              lgd_mode := LgdMode.supervisory,
              lgd_floor_policy := lgd_policy_basel2 } := by
          rw [irb_params, hreg]
          rw [if_neg (fun hcon => Regime.noConfusion hcon)]
        have hsf : 0 ≤ (irb_params approach ack (resolve_floor_regime
            (normalize_jurisdiction jur) flag) col).scaling_factor := by
          rw [hp]
          norm_num [SCALING_FACTOR_BASEL2_IRB]
        have hfl : 0.0003 ≤ (irb_params approach ack (resolve_floor_regime
            (normalize_jurisdiction jur) flag) col).pd_floors ack := by
          rw [hp]
          cases ack <;> norm_num [pd_floors_basel2]
        have hfu : (irb_params approach ack (resolve_floor_regime
            (normalize_jurisdiction jur) flag) col).pd_floors ack ≤ 1 := by
          rw [hp]
          cases ack <;> norm_num [pd_floors_basel2]
        have hlgdu : 0 ≤ (lgd_decision (irb_params approach ack
            (resolve_floor_regime (normalize_jurisdiction jur) flag)
            col).lgd_mode (some lgdv) ((irb_params approach ack
            (resolve_floor_regime (normalize_jurisdiction jur) flag)
            col).lgd_defaults ack) (irb_params approach ack
            (resolve_floor_regime (normalize_jurisdiction jur) flag)
            col).lgd_floor_policy).lgd_used := by
          rw [hp]
          show 0 ≤ lgd_defaults_basel2_firb ack
          cases ack <;> norm_num [lgd_defaults_basel2_firb]
        have hnr : normalize_rate (some pdv) 0.01 ≤ 1 := by
          rw [normalize_rate_of_unit 0.01 hpd0 hpd1]
          exact hpd1
        constructor
        · intro x hx
          simp only [CalcResult.rwaField, Option.mem_def,
            Option.some.injEq] at hx
          subst hx
          exact calculate_irb_asrf_RWA_nonneg _ _ _ _ _ _ _ _ _ _ _ _ _ _ _ _
            head hsf hfl hfu hlgdu hnr
        · rfl
      · rw [calculate_loan_capital_irb_basel3 hmet hack hreg]
        constructor
        · intro x hx
          simp only [CalcResult.rwaField, Option.mem_def, Option.some.injEq,
            apply_basel3_output_floor] at hx
          subst hx
          refine le_trans ?_ (le_max_right _ _)
          exact mul_nonneg (by norm_num [BASEL3_OUTPUT_FLOOR_PCT])
            (mul_nonneg head (basel3_rw_fst_nonneg 3 _ _ _ _ _ _))
        · rfl

/-- C3 witness: a concrete Basel II IRB Corporate exposure with PD 1
percent, LGD 45 percent, EAD 100. -/
theorem C3_rwa_capital_witness :
    (∀ x ∈ (calculate_loan_capital Approach.BASEL_II_IRB 100 36 (some 0.01)
      (some 0.45) (some ExposureType.CORPORATE) none false false 0.08 "US"
      false none none false none).rwaField, 0 ≤ x) ∧
    (calculate_loan_capital Approach.BASEL_II_IRB 100 36 (some 0.01)
      (some 0.45) (some ExposureType.CORPORATE) none false false 0.08 "US"
      false none none false none).capitalRequiredField =
      Option.map (fun x => x * 0.08)
        (calculate_loan_capital Approach.BASEL_II_IRB 100 36 (some 0.01)
          (some 0.45) (some ExposureType.CORPORATE) none false false 0.08
          "US" false none none false none).rwaField :=
  C3_rwa_capital Approach.BASEL_II_IRB 100 36 0.01 0.45
    (some ExposureType.CORPORATE) none false false 0.08 "US" false none none
    false none (by norm_num) (by norm_num) (by norm_num) (by norm_num)
    (by norm_num)

end CapCalc
